import Mathlib

/-!
gfxreconstruct replay tool: two-pass memory portability, block codec, `main`.

A shallow embedding of

* `src/framework/util/zstd_compressor.cpp` (`ZstdCompressor::Compress`, `ZstdCompressor::Decompress`),
* `src/tools/replay/desktop_main.cpp` (`run_first_pass_replay_portability`, `main`),

together with the bind sort and the remap computation of the resource-tracking consumer, whose
source is not part of the three files and which are therefore modelled from the specification.
-/

namespace gfxrecon

/-! ## Memory portability engine (specification section 4.4) -/

/-- Resource Bind Record of the data model: one bind of a resource to a byte range of an
allocation. -/
structure ResourceBindRecord where
  allocation_id : Nat
  resource_id : Nat
  capture_offset : Nat
  capture_size : Nat
  alignment_requirement : Nat
deriving DecidableEq, Repr

/-- Memory Allocation Record of the data model, with its bind list in stream order. -/
structure MemoryAllocationRecord where
  capture_allocation_id : Nat
  capture_size : Nat
  capture_properties : Nat
  binds : List ResourceBindRecord
deriving DecidableEq, Repr

/-- Remap Entry of the data model: the output of the engine, one per Resource Bind Record. -/
structure RemapEntry where
  allocation_id : Nat
  resource_id : Nat
  replay_offset : Nat
  replay_allocation_size : Nat
deriving DecidableEq, Repr

/-- Modelled from the spec: the body of `SortMemoriesBoundResourcesByOffset` for one allocation
(`VulkanResourceTrackingConsumer` is not among the source files). "Within each Allocation Record,
stable-sort its bind list by `capture_offset` ascending, ties broken by original stream order."
Insertion from the right puts an earlier bind in front of every later bind with the same offset. -/
def SortBindsByOffset (binds : List ResourceBindRecord) : List ResourceBindRecord :=
  binds.insertionSort (fun a b => a.capture_offset ≤ b.capture_offset)

/-- Modelled from the spec: "round the cursor up to the bind's `alignment_requirement`". A cursor
that is already aligned stays, otherwise the missing padding is added. (With the natural-number
remainder a zero alignment leaves the cursor where it is.) -/
def alignUp (cursor alignment : Nat) : Nat :=
  if cursor % alignment = 0 then cursor else cursor + (alignment - cursor % alignment)

/-- Modelled from the spec: the cursor walk of `ComputeRemap` over one sorted bind list. "For each
bind, round the cursor up to the bind's `alignment_requirement`, assign `replay_offset = cursor`,
advance `cursor += capture_size`." Returns the assigned offsets and the final cursor. -/
def walkBinds : Nat → List ResourceBindRecord → List Nat × Nat
  | cursor, [] => ([], cursor)
  | cursor, b :: bs =>
    let aligned := alignUp cursor b.alignment_requirement
    let rest := walkBinds (aligned + b.capture_size) bs
    (aligned :: rest.1, rest.2)

/-- Modelled from the spec: `ComputeRemap` for one allocation
(`CalculateReplayBindingOffsetAndMemoryAllocationSize` is not among the source files). "Maintain a
running cursor starting at 0 ...; final `replay_allocation_size` for the allocation = final cursor
value." One entry per bind, in the order of the bind list. -/
def ComputeRemap (binds : List ResourceBindRecord) : List RemapEntry :=
  let walk := walkBinds 0 binds
  List.zipWith
    (fun b offset =>
      { allocation_id := b.allocation_id
        resource_id := b.resource_id
        replay_offset := offset
        replay_allocation_size := walk.2 })
    binds walk.1

/-- The `replay_allocation_size` of one allocation: the final cursor of the walk. -/
def replay_allocation_size (binds : List ResourceBindRecord) : Nat :=
  (walkBinds 0 binds).2

/-- Two half-open byte ranges `[o1, o1 + s1)` and `[o2, o2 + s2)` share a byte. -/
def intervalsOverlap (o1 s1 o2 s2 : Nat) : Prop :=
  max o1 o2 < min (o1 + s1) (o2 + s2)

instance (o1 s1 o2 s2 : Nat) : Decidable (intervalsOverlap o1 s1 o2 s2) := by
  unfold intervalsOverlap; infer_instance

/-- State of the resource-tracking consumer: the allocation records gathered during pass 1 and
the remap table computed from them. -/
structure VulkanResourceTrackingConsumer where
  allocations : List MemoryAllocationRecord
  remap_table : List RemapEntry
deriving DecidableEq, Repr

/-- Modelled from the spec: `SortMemoriesBoundResourcesByOffset` (called at
`desktop_main.cpp:80`), sorting the bind list of every allocation. -/
def VulkanResourceTrackingConsumer.SortMemoriesBoundResourcesByOffset
    (c : VulkanResourceTrackingConsumer) : VulkanResourceTrackingConsumer :=
  { c with allocations := c.allocations.map (fun a => { a with binds := SortBindsByOffset a.binds }) }

/-- Modelled from the spec: `CalculateReplayBindingOffsetAndMemoryAllocationSize` (called at
`desktop_main.cpp:83`), running `ComputeRemap` over every allocation's bind list. -/
def VulkanResourceTrackingConsumer.CalculateReplayBindingOffsetAndMemoryAllocationSize
    (c : VulkanResourceTrackingConsumer) : VulkanResourceTrackingConsumer :=
  { c with remap_table := (c.allocations.map (fun a => ComputeRemap a.binds)).flatten }

/-! ## Block codec: `ZstdCompressor` (`src/framework/util/zstd_compressor.cpp`) -/

/-- Conversion to `int32_t` / `int` (32 bits wide): reduction modulo `2^32`, read as two's
complement. Used for `static_cast<int32_t>(size_t)` and for `int x = <size_t value>`. -/
def to_int32 (n : Nat) : Int :=
  if n % 2 ^ 32 < 2 ^ 31 then ((n % 2 ^ 32 : Nat) : Int) else ((n % 2 ^ 32 : Nat) : Int) - 2 ^ 32

/-- Conversion of a signed value to `size_t` (64 bits wide): reduction modulo `2^64`. -/
def to_size_t (i : Int) : Nat :=
  (i % 2 ^ 64).toNat

/-- The zstd library, which the compressor calls and which is not part of the repository: the
`ZSTD_COMPRESSBOUND` macro and the two one-shot entry points. An entry point receives the
destination capacity, the memory behind the source pointer and the source size; it yields its
`size_t` return value and the bytes it stored at the start of the destination. -/
structure ZstdLibrary where
  ZSTD_COMPRESSBOUND : Nat → Nat
  ZSTD_compress : (dst_capacity : Nat) → (src : List UInt8) → (src_size : Nat) → (level : Int) →
    Nat × List UInt8
  ZSTD_decompress : (dst_capacity : Nat) → (src : List UInt8) → (compressed_size : Nat) →
    Nat × List UInt8

/-- The test `ZSTD_isError` of zstd: error codes are the top 120 values of `size_t`. -/
def ZSTD_isError (code : Nat) : Prop :=
  2 ^ 64 - 120 < code

instance (code : Nat) : Decidable (ZSTD_isError code) := by
  unfold ZSTD_isError; infer_instance

/-- `std::vector::resize` to a larger size: new elements are value-initialised. -/
def vector_resize (v : List UInt8) (n : Nat) : List UInt8 :=
  v.take n ++ List.replicate (n - v.length) 0

/-- Memory behind `data()` after a callee stored `bytes` at its start. -/
def store_at_start (buffer bytes : List UInt8) : List UInt8 :=
  bytes ++ buffer.drop bytes.length

/-- `ZstdCompressor::Compress` (`zstd_compressor.cpp:26-56`). `compressed_data` is `none` for a
null pointer. Yields the returned `size_t` and the vector afterwards. -/
def Compress (zstd : ZstdLibrary) (uncompressed_size : Nat) (uncompressed_data : List UInt8)
    (compressed_data : Option (List UInt8)) : Nat × Option (List UInt8) :=
  let copy_size : Nat := 0
  match compressed_data with
  | none => (0, none)
  | some vector =>
    let zstd_compressed_size := zstd.ZSTD_COMPRESSBOUND uncompressed_size
    let vector :=
      if zstd_compressed_size > vector.length then vector_resize vector zstd_compressed_size
      else vector
    let result := zstd.ZSTD_compress (to_size_t (to_int32 zstd_compressed_size)) uncompressed_data
      (to_size_t (to_int32 uncompressed_size)) 1
    let vector := store_at_start vector result.2
    let compressed_size_generated : Int := to_int32 result.1
    let copy_size := if compressed_size_generated > 0 then to_size_t compressed_size_generated
      else copy_size
    (copy_size, some vector)

/-- `ZstdCompressor::Decompress` (`zstd_compressor.cpp:58-81`). `uncompressed_data` is `none` for
a null pointer; the vector is not resized, its memory is handed to zstd with
`expected_uncompressed_size` as capacity. Yields the returned `size_t` and the vector afterwards. -/
def Decompress (zstd : ZstdLibrary) (compressed_size : Nat) (compressed_data : List UInt8)
    (expected_uncompressed_size : Nat) (uncompressed_data : Option (List UInt8)) :
    Nat × Option (List UInt8) :=
  let copy_size : Nat := 0
  match uncompressed_data with
  | none => (0, none)
  | some vector =>
    let result := zstd.ZSTD_decompress (to_size_t (to_int32 expected_uncompressed_size))
      compressed_data (to_size_t (to_int32 compressed_size))
    let vector := store_at_start vector result.2
    let uncompressed_size_generated : Int := to_int32 result.1
    let copy_size := if uncompressed_size_generated > 0 then to_size_t uncompressed_size_generated
      else copy_size
    (copy_size, some vector)

/-- What the documentation of zstd promises of the return values of the one-shot pair: a
`size_t` that is an error code or a size within the destination capacity, and exactly that many
bytes stored in the destination. -/
structure ZstdLibrary.Sized (zstd : ZstdLibrary) : Prop where
  compress_size : ∀ cap src n level,
    (zstd.ZSTD_compress cap src n level).1 < 2 ^ 64 ∧
      (ZSTD_isError (zstd.ZSTD_compress cap src n level).1 ∨
        ((zstd.ZSTD_compress cap src n level).1 ≤ cap ∧
          (zstd.ZSTD_compress cap src n level).2.length = (zstd.ZSTD_compress cap src n level).1))
  decompress_size : ∀ cap src n,
    (zstd.ZSTD_decompress cap src n).1 < 2 ^ 64 ∧
      (ZSTD_isError (zstd.ZSTD_decompress cap src n).1 ∨
        ((zstd.ZSTD_decompress cap src n).1 ≤ cap ∧
          (zstd.ZSTD_decompress cap src n).2.length = (zstd.ZSTD_decompress cap src n).1))

/-- The zstd pair is lossless: besides `Sized`, a frame made by `ZSTD_compress` from the first `n`
bytes of `src` decodes to those bytes whenever the destination capacity suffices. `memory` is
any memory that starts with the frame. -/
structure ZstdLibrary.Lossless (zstd : ZstdLibrary) : Prop where
  sized : zstd.Sized
  round_trip : ∀ cap src n level memory dst_capacity,
    ¬ ZSTD_isError (zstd.ZSTD_compress cap src n level).1 →
    n ≤ src.length → n ≤ dst_capacity →
    memory.take (zstd.ZSTD_compress cap src n level).1 = (zstd.ZSTD_compress cap src n level).2 →
    zstd.ZSTD_decompress dst_capacity memory (zstd.ZSTD_compress cap src n level).1 =
      (n, src.take n)

/-- A stand-in for the library used to evaluate the compressor on concrete bytes: frames are the
stored payload, the bound is the payload size, and a destination that is too small yields
`ZSTD_error_dstSize_tooSmall` (code 70). Sizes are `size_t` values. -/
def storedZstd : ZstdLibrary where
  ZSTD_COMPRESSBOUND := fun n => n
  ZSTD_compress := fun dst_capacity src src_size _ =>
    if src_size ≤ dst_capacity ∧ src_size ≤ src.length ∧ src_size < 2 ^ 64 then
      (src_size, src.take src_size)
    else (2 ^ 64 - 70, [])
  ZSTD_decompress := fun dst_capacity src compressed_size =>
    if compressed_size ≤ dst_capacity ∧ compressed_size ≤ src.length ∧ compressed_size < 2 ^ 64 then
      (compressed_size, src.take compressed_size)
    else (2 ^ 64 - 70, [])

/-- The first five bytes of a single-segment zstd frame without checksum and dictionary: the
magic number `0xFD2FB528` in little-endian order and the frame header descriptor `0x20`. -/
def raw_frame_start : List UInt8 :=
  [0x28, 0xB5, 0x2F, 0xFD, 0x20]

/-- The zstd frame format cut down to the frames zstd writes for a payload too short to
compress: `raw_frame_start`, one byte of frame content size, a three-byte block header
(`last block`, type `raw`, block size: the value `1 + 8 * size`, little-endian) and the payload
itself. `ZSTD_decompress` decodes such a frame as zstd does: it yields the payload and its size,
or `ZSTD_error_dstSize_tooSmall` (code 70) when the payload exceeds the destination capacity.
Input of any other shape is outside this cut-down format and yields an error code.
`ZSTD_COMPRESSBOUND` is the macro of `zstd.h`. -/
def rawBlockZstd : ZstdLibrary where
  ZSTD_COMPRESSBOUND := fun n => n + n / 256 + (if n < 131072 then (131072 - n) / 2048 else 0)
  ZSTD_compress := fun dst_capacity src src_size _ =>
    if src_size ≤ src.length ∧ src_size < 7 then
      if src_size + 9 ≤ dst_capacity then
        (src_size + 9,
          raw_frame_start ++ [UInt8.ofNat src_size, UInt8.ofNat (1 + 8 * src_size), 0, 0] ++
            src.take src_size)
      else (2 ^ 64 - 70, [])
    else (2 ^ 64 - 1, [])
  ZSTD_decompress := fun dst_capacity src compressed_size =>
    match (src.take compressed_size).drop 5 with
    | content_size :: b0 :: b1 :: b2 :: content =>
      if (src.take compressed_size).take 5 = raw_frame_start ∧ compressed_size ≤ src.length ∧
          b0.toNat = 1 + 8 * content_size.toNat ∧ b1 = 0 ∧ b2 = 0 ∧
          content.length = content_size.toNat then
        if content_size.toNat ≤ dst_capacity then (content_size.toNat, content)
        else (2 ^ 64 - 70, [])
      else (2 ^ 64 - 20, [])
    | _ => (2 ^ 64 - 72, [])

/-- The frame zstd writes for the three bytes 1, 2, 3: twelve bytes. -/
def frame_of_1_2_3 : List UInt8 :=
  [0x28, 0xB5, 0x2F, 0xFD, 0x20, 0x03, 0x19, 0x00, 0x00, 0x01, 0x02, 0x03]

/-! ## Replay orchestrator: `src/tools/replay/desktop_main.cpp` -/

/-- The value of `ReplayOptions::create_resource_allocator`: `CreateDefaultAllocator`, or one of
the allocator factories selected by `-m` (told apart by an identifier). -/
inductive ResourceAllocatorFactory where
  | CreateDefaultAllocator
  | translating (id : Nat)
deriving DecidableEq, Repr

/-- The two fields of `gfxrecon::decode::ReplayOptions` that `desktop_main.cpp` reads. -/
structure ReplayOptions where
  create_resource_allocator : ResourceAllocatorFactory
  enable_multipass_replay_portability : Bool
deriving DecidableEq, Repr

/-- Error state of a `FileProcessor`. Modelled from the spec: the enumeration is declared outside
the source files; section 4.1 lists `NoError | IOError | CorruptData`. -/
inductive ErrorState where
  | kErrorNone
  | kIOError
  | kCorruptData
deriving DecidableEq, Repr

/-- The consumers `desktop_main.cpp` registers with a decoder. -/
inductive Consumer where
  | resource_tracking_consumer
  | replay_consumer
deriving DecidableEq, Repr

/-- Modelled from the spec: `VulkanDecoder` (declared outside the source files) as far as
`desktop_main.cpp` uses it, the list of registered consumers in registration order
(section 4.3). -/
structure VulkanDecoder where
  consumers : List Consumer
deriving DecidableEq, Repr

/-- Modelled from the spec: `AddConsumer` registers after the consumers already present. -/
def VulkanDecoder.AddConsumer (d : VulkanDecoder) (c : Consumer) : VulkanDecoder :=
  { consumers := d.consumers ++ [c] }

/-- Modelled from the spec: `RemoveConsumer` takes the consumer out of the registration list. -/
def VulkanDecoder.RemoveConsumer (d : VulkanDecoder) (c : Consumer) : VulkanDecoder :=
  { consumers := d.consumers.filter (fun x => x ≠ c) }

/-- `WsiPlatform` as used in `main`. -/
inductive WsiPlatform where
  | kAuto
  | kWin32
  | kXcb
  | kWayland
deriving DecidableEq, Repr

/-- The platform applications `main` can create. -/
inductive Application where
  | Win32Application
  | WaylandApplication
  | XcbApplication
deriving DecidableEq, Repr

/-- The preprocessor symbols that select the platform code of `main`. -/
structure BuildConfiguration where
  WIN32 : Bool
  VK_USE_PLATFORM_WIN32_KHR : Bool
  VK_USE_PLATFORM_XCB_KHR : Bool
  VK_USE_PLATFORM_WAYLAND_KHR : Bool
deriving DecidableEq, Repr

/-- What one call dispatched to the replay consumer during `application->Run()` does: it replays,
or the consumer invokes its fatal-error handler with a message, or something else is thrown. -/
inductive CallResult where
  | replayed
  | fatal (message : String)
  | unhandled
deriving DecidableEq, Repr

/-- What is thrown inside the `try` block of `main`. -/
inductive Thrown where
  | runtime_error (what : String)
  | other
deriving DecidableEq, Repr

/-- Lines written with `GFXRECON_WRITE_CONSOLE` / `GFXRECON_LOG_FATAL`. -/
inductive Message where
  | first_pass_start
  | first_pass_done
  | platform_failure
  | mutually_exclusive_arguments
  | fps (total_frames start_frame end_frame : Nat)
  | failure_during_replay
  | no_frames
  | fatal_error (what : String)
  | unhandled_exception
deriving DecidableEq, Repr

/-- The calls that `desktop_main.cpp` makes, in the order it makes them. `AddDecoder` and
`application_Run` carry the consumers registered with the decoder at that moment, and the
construction of the replay consumer carries the state of the tracking consumer it is given. -/
inductive Event where
  | Log_Init
  | Log_Release
  | PrintUsage
  | ProcessDisableDebugPopup
  | file_processor_Initialize (ok : Bool)
  | GetReplayOptions
  | console (m : Message)
  | call_run_first_pass_replay_portability
  | new_VulkanResourceTrackingConsumer
  | resource_tracking_Initialize (ok : Bool)
  | resource_tracking_decoder_AddConsumer (c : Consumer)
  | resource_tracking_AddDecoder (consumers : List Consumer)
  | resource_tracking_ProcessAllFrames (error_state : ErrorState)
  | resource_tracking_RemoveDecoder
  | resource_tracking_decoder_RemoveConsumer (c : Consumer)
  | SortMemoriesBoundResourcesByOffset
  | CalculateReplayBindingOffsetAndMemoryAllocationSize
  | new_VulkanReplayConsumer (resource_tracking_consumer : Option VulkanResourceTrackingConsumer)
  | SetFatalErrorHandler
  | decoder_AddConsumer (c : Consumer)
  | file_processor_AddDecoder (consumers : List Consumer)
  | SetPauseFrame
  | CheckActiveLayers
  | application_Run (consumers : List Consumer)
  | dispatch (call : Nat) (consumers : List Consumer)
  | fatal_error_handler (message : String)
deriving DecidableEq, Repr

/-- Everything `main` obtains from its surroundings: the answers of the argument parser, of the
file processors, of the platform applications and of the replayed calls. -/
structure Environment where
  CheckOptionPrintVersion : Bool
  CheckOptionPrintUsage : Bool
  IsInvalid : Bool
  GetPositionalArgumentsCount : Nat
  build : BuildConfiguration
  /-- Result of `file_processor.Initialize(filename)` in `main`. -/
  file_processor_Initialize : Bool
  GetWsiPlatform : WsiPlatform
  win32_application_Initialize : Bool
  wayland_application_Initialize : Bool
  xcb_application_Initialize : Bool
  GetReplayOptions : ReplayOptions
  /-- Result of `file_processor_resource_tracking.Initialize(filename)` in pass 1. -/
  resource_tracking_Initialize : Bool
  /-- Error state of the pass-1 file processor after `ProcessAllFrames`. -/
  resource_tracking_error_state : ErrorState
  /-- Allocation records the tracking consumer has gathered when `ProcessAllFrames` returns. -/
  tracked_allocations : List MemoryAllocationRecord
  /-- The calls pass 2 would dispatch to the replay consumer, in stream order. -/
  replay_calls : List CallResult
  /-- Result of `file_processor.GetCurrentFrameNumber()` after `application->Run()` (`uint32_t`). -/
  GetCurrentFrameNumber : Nat
  /-- Result of `file_processor.GetErrorState()` after `application->Run()`. -/
  GetErrorState : ErrorState
deriving Repr

/-- Result of `run_first_pass_replay_portability`: the calls it made and the pointer
`*resource_tracking_consumer` afterwards, given as the state of the object it points to
(`none` for `nullptr`). The decoder is a by-value parameter, so the caller's decoder is untouched
and is not part of the result. -/
structure FirstPass where
  trace : List Event
  resource_tracking_consumer : Option VulkanResourceTrackingConsumer
deriving DecidableEq, Repr

/-- `run_first_pass_replay_portability` (`desktop_main.cpp:54-87`). `decoder` is the copy made
for the by-value parameter; `resource_tracking_consumer` is the value of the caller's pointer
on entry. -/
def run_first_pass_replay_portability (env : Environment) (replay_options : ReplayOptions)
    (decoder : VulkanDecoder) (resource_tracking_consumer : Option VulkanResourceTrackingConsumer) :
    FirstPass :=
  if replay_options.enable_multipass_replay_portability == true then
    let consumer : VulkanResourceTrackingConsumer := { allocations := [], remap_table := [] }
    let start := [Event.console Message.first_pass_start, Event.new_VulkanResourceTrackingConsumer]
    let pass : List Event × VulkanResourceTrackingConsumer :=
      if env.resource_tracking_Initialize then
        let decoder := decoder.AddConsumer Consumer.resource_tracking_consumer
        ([Event.resource_tracking_Initialize true,
          Event.resource_tracking_decoder_AddConsumer Consumer.resource_tracking_consumer,
          Event.resource_tracking_AddDecoder decoder.consumers,
          Event.resource_tracking_ProcessAllFrames env.resource_tracking_error_state,
          Event.resource_tracking_RemoveDecoder,
          Event.resource_tracking_decoder_RemoveConsumer Consumer.resource_tracking_consumer],
         { consumer with allocations := env.tracked_allocations })
      else
        ([Event.resource_tracking_Initialize false], consumer)
    let consumer := pass.2.SortMemoriesBoundResourcesByOffset
    let consumer := consumer.CalculateReplayBindingOffsetAndMemoryAllocationSize
    { trace := start ++ pass.1 ++
        [Event.SortMemoriesBoundResourcesByOffset,
         Event.CalculateReplayBindingOffsetAndMemoryAllocationSize,
         Event.console Message.first_pass_done]
      resource_tracking_consumer := some consumer }
  else
    { trace := [], resource_tracking_consumer := resource_tracking_consumer }

/-- The platform set-up of `main` (`desktop_main.cpp:128-169`): the application that ends up in
`application` (and, with it, `window_factory`), or `none` when both stay empty. -/
def setup_platform (env : Environment) : Option Application :=
  let wsi_platform := env.GetWsiPlatform
  let application : Option Application := none
  if env.build.WIN32 then
    if env.build.VK_USE_PLATFORM_WIN32_KHR then
      if wsi_platform = WsiPlatform.kWin32 ∨
          (wsi_platform = WsiPlatform.kAuto ∧ application.isNone) then
        if env.win32_application_Initialize then some Application.Win32Application
        else application
      else application
    else application
  else
    let application :=
      if env.build.VK_USE_PLATFORM_WAYLAND_KHR then
        if wsi_platform = WsiPlatform.kWayland ∨
            (wsi_platform = WsiPlatform.kAuto ∧ application.isNone) then
          if env.wayland_application_Initialize then some Application.WaylandApplication
          else application
        else application
      else application
    let application :=
      if env.build.VK_USE_PLATFORM_XCB_KHR then
        if wsi_platform = WsiPlatform.kXcb ∨
            (wsi_platform = WsiPlatform.kAuto ∧ application.isNone) then
          if env.xcb_application_Initialize then some Application.XcbApplication
          else application
        else application
      else application
    application

/-- What a stretch of the `try` block of `main` leaves behind: the calls made, the value of
`return_code`, and what was thrown (if anything). -/
structure Block where
  trace : List Event
  return_code : Int
  thrown : Option Thrown
deriving DecidableEq, Repr

/-- Modelled from the spec: the decode loop driven by `application->Run()` (`Application` and
`FileProcessor` are declared outside the source files). Section 5: calls are dispatched one at a
time, in stream order, to the consumers registered with the decoder. The fatal-error handler that
`main` installs (`desktop_main.cpp:207-208`) throws `std::runtime_error(message)`, which leaves
the loop; `call` numbers the dispatched calls. Yields the calls made and what was thrown. -/
def dispatch_calls (consumers : List Consumer) : Nat → List CallResult → List Event × Option Thrown
  | _, [] => ([], none)
  | call, CallResult.replayed :: rest =>
    let r := dispatch_calls consumers (call + 1) rest
    (Event.dispatch call consumers :: r.1, r.2)
  | call, CallResult.fatal message :: _ =>
    ([Event.dispatch call consumers, Event.fatal_error_handler message],
      some (Thrown.runtime_error message))
  | call, CallResult.unhandled :: _ =>
    ([Event.dispatch call consumers], some Thrown.other)

/-- `(end_frame - start_frame) + 1` in `uint32_t` arithmetic (`desktop_main.cpp:231`). -/
def total_frames (end_frame start_frame : Nat) : Nat :=
  ((end_frame + (2 ^ 32 - start_frame % 2 ^ 32)) % 2 ^ 32 + 1) % 2 ^ 32

/-- The replay of `main` (`desktop_main.cpp:197-250`), entered when the two modes are not both
selected: pass 1 (if requested), then the replay consumer and `application->Run()`, then the
report. -/
def replay_trace (env : Environment) (replay_options : ReplayOptions) (decoder : VulkanDecoder) :
    Block :=
  let resource_tracking_consumer : Option VulkanResourceTrackingConsumer := none
  let first_pass :=
    run_first_pass_replay_portability env replay_options decoder resource_tracking_consumer
  let resource_tracking_consumer := first_pass.resource_tracking_consumer
  let decoder := decoder.AddConsumer Consumer.replay_consumer
  let start_frame : Nat := 1
  let before_run :=
    [Event.call_run_first_pass_replay_portability] ++ first_pass.trace ++
      [Event.new_VulkanReplayConsumer resource_tracking_consumer,
       Event.SetFatalErrorHandler,
       Event.decoder_AddConsumer Consumer.replay_consumer,
       Event.file_processor_AddDecoder decoder.consumers,
       Event.SetPauseFrame,
       Event.CheckActiveLayers,
       Event.application_Run decoder.consumers]
  let run := dispatch_calls decoder.consumers 0 env.replay_calls
  match run.2 with
  | some thrown => { trace := before_run ++ run.1, return_code := 0, thrown := some thrown }
  | none =>
    if env.GetCurrentFrameNumber % 2 ^ 32 > 0 ∧ env.GetErrorState = ErrorState.kErrorNone then
      let end_frame := env.GetCurrentFrameNumber % 2 ^ 32
      { trace := before_run ++ run.1 ++
          [Event.console (Message.fps (total_frames end_frame start_frame) start_frame end_frame)]
        return_code := 0
        thrown := none }
    else if env.GetErrorState ≠ ErrorState.kErrorNone then
      { trace := before_run ++ run.1 ++ [Event.console Message.failure_during_replay]
        return_code := -1
        thrown := none }
    else
      { trace := before_run ++ run.1 ++ [Event.console Message.no_frames]
        return_code := 0
        thrown := none }

/-- The `try` block of `main` (`desktop_main.cpp:113-253`). -/
def try_block (env : Environment) : Block :=
  if !env.file_processor_Initialize then
    { trace := [Event.file_processor_Initialize false], return_code := -1, thrown := none }
  else
    match setup_platform env with
    | none =>
      { trace := [Event.file_processor_Initialize true, Event.console Message.platform_failure]
        return_code := -1
        thrown := none }
    | some _ =>
      let decoder : VulkanDecoder := { consumers := [] }
      let replay_options := env.GetReplayOptions
      if replay_options.create_resource_allocator ≠ ResourceAllocatorFactory.CreateDefaultAllocator ∧
          replay_options.enable_multipass_replay_portability = true then
        { trace := [Event.file_processor_Initialize true, Event.GetReplayOptions,
            Event.console Message.mutually_exclusive_arguments]
          return_code := -1
          thrown := none }
      else
        let replay := replay_trace env replay_options decoder
        { replay with
          trace := [Event.file_processor_Initialize true, Event.GetReplayOptions] ++ replay.trace }

/-- How a run of `main` ends: `exit(code)` during argument handling, or `return return_code`. -/
inductive Outcome where
  | exited (code : Int)
  | returned (code : Int)
deriving DecidableEq, Repr

/-- A run of `main`: the calls made and how it ended. -/
structure Run where
  trace : List Event
  outcome : Outcome
deriving DecidableEq, Repr

/-- The handlers of `main` and its last lines (`desktop_main.cpp:254-267`): what was thrown in the
`try` block is caught, `return_code` becomes -1 for it, and `return_code` is returned. -/
def catch_and_return (block : Block) : Run :=
  match block.thrown with
  | none =>
    { trace := block.trace ++ [Event.Log_Release]
      outcome := Outcome.returned block.return_code }
  | some (Thrown.runtime_error what) =>
    { trace := block.trace ++ [Event.console (Message.fatal_error what), Event.Log_Release]
      outcome := Outcome.returned (-1) }
  | some Thrown.other =>
    { trace := block.trace ++ [Event.console Message.unhandled_exception, Event.Log_Release]
      outcome := Outcome.returned (-1) }

/-- The function `main` (`desktop_main.cpp:89-268`). -/
def main (env : Environment) : Run :=
  if env.CheckOptionPrintVersion || env.CheckOptionPrintUsage then
    { trace := [Event.Log_Init, Event.Log_Release], outcome := Outcome.exited 0 }
  else if env.IsInvalid || env.GetPositionalArgumentsCount != 1 then
    { trace := [Event.Log_Init, Event.PrintUsage, Event.Log_Release], outcome := Outcome.exited (-1) }
  else
    let run := catch_and_return (try_block env)
    { trace := [Event.Log_Init, Event.ProcessDisableDebugPopup] ++ run.trace
      outcome := run.outcome }

/-- The run gets as far as the mutual-exclusion test of `main` (`desktop_main.cpp:187`): no
version or usage option, valid arguments, the file opens and a platform application is created. -/
def reaches_option_check (env : Environment) : Prop :=
  env.CheckOptionPrintVersion = false ∧ env.CheckOptionPrintUsage = false ∧
    env.IsInvalid = false ∧ env.GetPositionalArgumentsCount = 1 ∧
    env.file_processor_Initialize = true ∧ (setup_platform env).isSome = true

/-- The two modes that exclude each other are both selected (`desktop_main.cpp:187-188`). -/
def both_modes_selected (replay_options : ReplayOptions) : Prop :=
  replay_options.create_resource_allocator ≠ ResourceAllocatorFactory.CreateDefaultAllocator ∧
    replay_options.enable_multipass_replay_portability = true

instance (env : Environment) : Decidable (reaches_option_check env) := by
  unfold reaches_option_check; infer_instance

instance (replay_options : ReplayOptions) : Decidable (both_modes_selected replay_options) := by
  unfold both_modes_selected; infer_instance

/-- An event that belongs to a pass: the call of `run_first_pass_replay_portability`, the
registration of a consumer with a decoder, `ProcessAllFrames`, `application->Run()` or a
dispatched call. -/
def Event.starts_pass : Event → Bool
  | Event.call_run_first_pass_replay_portability => true
  | Event.resource_tracking_decoder_AddConsumer _ => true
  | Event.decoder_AddConsumer _ => true
  | Event.resource_tracking_ProcessAllFrames _ => true
  | Event.application_Run _ => true
  | Event.dispatch _ _ => true
  | _ => false

/-! ## Names for the stretches of a run of `main`, and example runs -/

/-- An event that `run_first_pass_replay_portability` makes. -/
def Event.in_pass_one : Event → Bool
  | Event.console Message.first_pass_start => true
  | Event.console Message.first_pass_done => true
  | Event.new_VulkanResourceTrackingConsumer => true
  | Event.resource_tracking_Initialize _ => true
  | Event.resource_tracking_decoder_AddConsumer _ => true
  | Event.resource_tracking_AddDecoder _ => true
  | Event.resource_tracking_ProcessAllFrames _ => true
  | Event.resource_tracking_RemoveDecoder => true
  | Event.resource_tracking_decoder_RemoveConsumer _ => true
  | Event.SortMemoriesBoundResourcesByOffset => true
  | Event.CalculateReplayBindingOffsetAndMemoryAllocationSize => true
  | _ => false

/-- What the tracking consumer has gathered when pass 1 is over: the allocation records of the
stream, or nothing when the pass-1 file processor did not initialise. -/
def gathered (env : Environment) : VulkanResourceTrackingConsumer :=
  { allocations := if env.resource_tracking_Initialize then env.tracked_allocations else []
    remap_table := [] }

/-- The calls of `main` from the construction of the replay consumer to `application->Run()`,
when `first_pass` is what `run_first_pass_replay_portability` left behind. -/
def pass_two_start (first_pass : FirstPass) : List Event :=
  [Event.new_VulkanReplayConsumer first_pass.resource_tracking_consumer,
   Event.SetFatalErrorHandler,
   Event.decoder_AddConsumer Consumer.replay_consumer,
   Event.file_processor_AddDecoder [Consumer.replay_consumer],
   Event.SetPauseFrame,
   Event.CheckActiveLayers,
   Event.application_Run [Consumer.replay_consumer]]

/-- The calls of `main` before the replay consumer is constructed. -/
def pass_one (env : Environment) : List Event :=
  [Event.Log_Init, Event.ProcessDisableDebugPopup, Event.file_processor_Initialize true,
   Event.GetReplayOptions, Event.call_run_first_pass_replay_portability] ++
    (run_first_pass_replay_portability env env.GetReplayOptions { consumers := [] } none).trace

/-- What follows `application->Run()` being entered: the dispatched calls and the report. -/
def after_run (env : Environment) : Run :=
  match (dispatch_calls [Consumer.replay_consumer] 0 env.replay_calls).2 with
  | some (Thrown.runtime_error what) =>
    { trace := (dispatch_calls [Consumer.replay_consumer] 0 env.replay_calls).1 ++
        [Event.console (Message.fatal_error what), Event.Log_Release]
      outcome := Outcome.returned (-1) }
  | some Thrown.other =>
    { trace := (dispatch_calls [Consumer.replay_consumer] 0 env.replay_calls).1 ++
        [Event.console Message.unhandled_exception, Event.Log_Release]
      outcome := Outcome.returned (-1) }
  | none =>
    if env.GetCurrentFrameNumber % 2 ^ 32 > 0 ∧ env.GetErrorState = ErrorState.kErrorNone then
      { trace := (dispatch_calls [Consumer.replay_consumer] 0 env.replay_calls).1 ++
          [Event.console (Message.fps (total_frames (env.GetCurrentFrameNumber % 2 ^ 32) 1) 1
            (env.GetCurrentFrameNumber % 2 ^ 32)), Event.Log_Release]
        outcome := Outcome.returned 0 }
    else if env.GetErrorState ≠ ErrorState.kErrorNone then
      { trace := (dispatch_calls [Consumer.replay_consumer] 0 env.replay_calls).1 ++
          [Event.console Message.failure_during_replay, Event.Log_Release]
        outcome := Outcome.returned (-1) }
    else
      { trace := (dispatch_calls [Consumer.replay_consumer] 0 env.replay_calls).1 ++
          [Event.console Message.no_frames, Event.Log_Release]
        outcome := Outcome.returned 0 }

/-- A run that serves as example: a Linux build with XCB, one positional argument, a trace file
that opens, a two-frame capture whose three calls replay without error. -/
def example_environment : Environment where
  CheckOptionPrintVersion := false
  CheckOptionPrintUsage := false
  IsInvalid := false
  GetPositionalArgumentsCount := 1
  build :=
    { WIN32 := false
      VK_USE_PLATFORM_WIN32_KHR := false
      VK_USE_PLATFORM_XCB_KHR := true
      VK_USE_PLATFORM_WAYLAND_KHR := false }
  file_processor_Initialize := true
  GetWsiPlatform := WsiPlatform.kAuto
  win32_application_Initialize := false
  wayland_application_Initialize := false
  xcb_application_Initialize := true
  GetReplayOptions :=
    { create_resource_allocator := ResourceAllocatorFactory.CreateDefaultAllocator
      enable_multipass_replay_portability := false }
  resource_tracking_Initialize := true
  resource_tracking_error_state := ErrorState.kErrorNone
  tracked_allocations :=
    [{ capture_allocation_id := 1
       capture_size := 192
       capture_properties := 0
       binds := [⟨1, 1, 128, 64, 16⟩, ⟨1, 2, 0, 64, 16⟩, ⟨1, 3, 64, 64, 16⟩] }]
  replay_calls := [CallResult.replayed, CallResult.replayed, CallResult.replayed]
  GetCurrentFrameNumber := 2
  GetErrorState := ErrorState.kErrorNone

/-- The example run with two-pass portability requested. -/
def two_pass_environment : Environment :=
  { example_environment with
    GetReplayOptions :=
      { create_resource_allocator := ResourceAllocatorFactory.CreateDefaultAllocator
        enable_multipass_replay_portability := true } }

/-- The example run in which the second call of pass 2 is fatal for the replay consumer. -/
def fatal_environment : Environment :=
  { example_environment with
    replay_calls := [CallResult.replayed, CallResult.fatal "device lost", CallResult.replayed] }

/-! ## Facts about the remap computation -/

theorem alignUp_ge (cursor alignment : Nat) : cursor ≤ alignUp cursor alignment := by
  unfold alignUp
  split <;> omega

theorem alignUp_mod (cursor alignment : Nat) (h : 0 < alignment) :
    alignUp cursor alignment % alignment = 0 := by
  unfold alignUp
  split
  · assumption
  · have hlt : cursor % alignment < alignment := Nat.mod_lt _ h
    have hle : cursor % alignment ≤ cursor := Nat.mod_le _ _
    have hd : alignment ∣ cursor - cursor % alignment := Nat.dvd_sub_mod cursor
    have hsum : cursor + (alignment - cursor % alignment) =
        (cursor - cursor % alignment) + alignment := by omega
    rw [hsum]
    exact Nat.mod_eq_zero_of_dvd (Dvd.dvd.add hd (dvd_refl alignment))

theorem walkBinds_length (binds : List ResourceBindRecord) :
    ∀ cursor, (walkBinds cursor binds).1.length = binds.length := by
  induction binds with
  | nil => intro cursor; rfl
  | cons b bs ih => intro cursor; simp [walkBinds, ih]

theorem walkBinds_lower (binds : List ResourceBindRecord) :
    ∀ cursor, ∀ o ∈ (walkBinds cursor binds).1, cursor ≤ o := by
  induction binds with
  | nil => intro cursor o ho; simp [walkBinds] at ho
  | cons b bs ih =>
    intro cursor o ho
    simp only [walkBinds, List.mem_cons] at ho
    have h1 := alignUp_ge cursor b.alignment_requirement
    rcases ho with rfl | ho
    · exact h1
    · have h2 := ih _ o ho
      omega

theorem walkBinds_sequential (binds : List ResourceBindRecord) :
    ∀ cursor, (binds.zip (walkBinds cursor binds).1).Pairwise
      (fun p q => p.2 + p.1.capture_size ≤ q.2) := by
  induction binds with
  | nil => intro cursor; simp [walkBinds]
  | cons b bs ih =>
    intro cursor
    simp only [walkBinds, List.zip_cons_cons, List.pairwise_cons]
    refine ⟨?_, ih _⟩
    intro q hq
    exact walkBinds_lower bs _ q.2 (List.of_mem_zip hq).2

theorem walkBinds_sum (binds : List ResourceBindRecord) :
    ∀ cursor, cursor + (binds.map (fun b => b.capture_size)).sum ≤ (walkBinds cursor binds).2 := by
  induction binds with
  | nil => intro cursor; simp [walkBinds]
  | cons b bs ih =>
    intro cursor
    simp only [walkBinds, List.map_cons, List.sum_cons]
    have h1 := alignUp_ge cursor b.alignment_requirement
    have h2 := ih (alignUp cursor b.alignment_requirement + b.capture_size)
    omega

theorem walkBinds_aligned (binds : List ResourceBindRecord) :
    ∀ cursor, ∀ p ∈ binds.zip (walkBinds cursor binds).1,
      0 < p.1.alignment_requirement → p.2 % p.1.alignment_requirement = 0 := by
  induction binds with
  | nil => intro cursor p hp; simp [walkBinds] at hp
  | cons b bs ih =>
    intro cursor p hp hpos
    simp only [walkBinds, List.zip_cons_cons, List.mem_cons] at hp
    rcases hp with rfl | hp
    · exact alignUp_mod _ _ hpos
    · exact ih _ p hp hpos

theorem zip_zipWith_left {α β γ : Type} (f : α → β → γ) :
    ∀ (xs : List α) (ys : List β),
      xs.zip (List.zipWith f xs ys) = (xs.zip ys).map (fun p => (p.1, f p.1 p.2)) := by
  intro xs
  induction xs with
  | nil => intro ys; simp
  | cons x xs ih =>
    intro ys
    cases ys with
    | nil => simp
    | cons y ys => simp [ih]

theorem ComputeRemap_length (binds : List ResourceBindRecord) :
    (ComputeRemap binds).length = binds.length := by
  simp [ComputeRemap, walkBinds_length]

theorem ComputeRemap_sequential (binds : List ResourceBindRecord) :
    (binds.zip (ComputeRemap binds)).Pairwise
      (fun p q => p.2.replay_offset + p.1.capture_size ≤ q.2.replay_offset) := by
  unfold ComputeRemap
  simp only [zip_zipWith_left, List.pairwise_map]
  exact walkBinds_sequential binds 0

theorem not_intervalsOverlap_of_le (o1 s1 o2 s2 : Nat) (h : o1 + s1 ≤ o2) :
    ¬ intervalsOverlap o1 s1 o2 s2 := by
  unfold intervalsOverlap
  intro hlt
  have h1 := le_max_right o1 o2
  have h2 := min_le_left (o1 + s1) (o2 + s2)
  omega

theorem ComputeRemap_aligned (binds : List ResourceBindRecord) :
    ∀ p ∈ binds.zip (ComputeRemap binds),
      0 < p.1.alignment_requirement → p.2.replay_offset % p.1.alignment_requirement = 0 := by
  intro p hp hpos
  unfold ComputeRemap at hp
  rw [zip_zipWith_left] at hp
  obtain ⟨q, hq, rfl⟩ := List.mem_map.mp hp
  exact walkBinds_aligned binds 0 q hq hpos

theorem ComputeRemap_size (binds : List ResourceBindRecord) :
    ∀ e ∈ ComputeRemap binds, e.replay_allocation_size = replay_allocation_size binds := by
  intro e he
  unfold ComputeRemap at he
  obtain ⟨i, hi, rfl⟩ := List.mem_iff_getElem.mp he
  simp [replay_allocation_size]

/-- Claim C8: for every allocation, after `SortBindsByOffset` followed by `ComputeRemap` (cursor
from 0; per bind: round the cursor up to the alignment, `replay_offset = cursor`,
`cursor += capture_size`) the sorted list holds the binds of the allocation, every bind has its
remap entry, and no two binds of the allocation get overlapping ranges
`[replay_offset, replay_offset + capture_size)` unless their capture-time ranges
`[capture_offset, capture_offset + capture_size)` overlapped as well. The proof goes through the
left alternative: the cursor walk lays the ranges out one after the other
(`ComputeRemap_sequential`), so two replay ranges never overlap. -/
theorem ComputeRemap_introduces_no_overlap (binds : List ResourceBindRecord) :
    (SortBindsByOffset binds).Perm binds ∧
    (ComputeRemap (SortBindsByOffset binds)).length = (SortBindsByOffset binds).length ∧
    ((SortBindsByOffset binds).zip (ComputeRemap (SortBindsByOffset binds))).Pairwise
      (fun p q =>
        ¬ intervalsOverlap p.2.replay_offset p.1.capture_size q.2.replay_offset q.1.capture_size ∨
          intervalsOverlap p.1.capture_offset p.1.capture_size
            q.1.capture_offset q.1.capture_size) := by
  refine ⟨List.perm_insertionSort _ binds, ComputeRemap_length _, ?_⟩
  refine (ComputeRemap_sequential (SortBindsByOffset binds)).imp ?_
  intro p q h
  exact Or.inl (not_intervalsOverlap_of_le _ _ _ _ h)

/-- Claim C9: for every bind list handed to `ComputeRemap`, the `replay_allocation_size` (carried
by every entry) is at least the sum of `capture_size` over the binds, and the `replay_offset` of
every bind with a positive `alignment_requirement` is a multiple of it. In the scenario, three
binds at capture offsets 128, 0, 64, each of size 64 and alignment 16, are put in the order
0, 64, 128 by the sort and get the replay offsets 0, 64, 128 and `replay_allocation_size = 192`. -/
theorem ComputeRemap_size_and_alignment (binds : List ResourceBindRecord) :
    (binds.map (fun b => b.capture_size)).sum ≤ replay_allocation_size binds ∧
    (∀ e ∈ ComputeRemap binds, e.replay_allocation_size = replay_allocation_size binds) ∧
    (∀ p ∈ binds.zip (ComputeRemap binds),
      0 < p.1.alignment_requirement → p.2.replay_offset % p.1.alignment_requirement = 0) ∧
    (SortBindsByOffset [⟨1, 1, 128, 64, 16⟩, ⟨1, 2, 0, 64, 16⟩, ⟨1, 3, 64, 64, 16⟩]).map
        (fun b => b.capture_offset) = [0, 64, 128] ∧
    ComputeRemap (SortBindsByOffset [⟨1, 1, 128, 64, 16⟩, ⟨1, 2, 0, 64, 16⟩, ⟨1, 3, 64, 64, 16⟩]) =
      [⟨1, 2, 0, 192⟩, ⟨1, 3, 64, 192⟩, ⟨1, 1, 128, 192⟩] := by
  refine ⟨?_, ComputeRemap_size binds, ComputeRemap_aligned binds, by decide, by decide⟩
  have h := walkBinds_sum binds 0
  simpa [replay_allocation_size] using h

/-- Claim C9 at the bind list of the scenario, in stream order: the allocation size covers the
three sizes and each replay offset is a multiple of the alignment of its bind. -/
theorem ComputeRemap_size_and_alignment_witness :
    64 + 64 + 64 ≤
      replay_allocation_size [⟨1, 1, 128, 64, 16⟩, ⟨1, 2, 0, 64, 16⟩, ⟨1, 3, 64, 64, 16⟩] ∧
    ∀ p ∈ [(⟨1, 1, 128, 64, 16⟩ : ResourceBindRecord), ⟨1, 2, 0, 64, 16⟩, ⟨1, 3, 64, 64, 16⟩].zip
        (ComputeRemap [⟨1, 1, 128, 64, 16⟩, ⟨1, 2, 0, 64, 16⟩, ⟨1, 3, 64, 64, 16⟩]),
      p.2.replay_offset % p.1.alignment_requirement = 0 :=
  have h := ComputeRemap_size_and_alignment
    [⟨1, 1, 128, 64, 16⟩, ⟨1, 2, 0, 64, 16⟩, ⟨1, 3, 64, 64, 16⟩]
  ⟨h.1, fun p hp => h.2.2.1 p hp
    ((by decide : ∀ q ∈
      [(⟨1, 1, 128, 64, 16⟩ : ResourceBindRecord), ⟨1, 2, 0, 64, 16⟩, ⟨1, 3, 64, 64, 16⟩].zip
        (ComputeRemap [⟨1, 1, 128, 64, 16⟩, ⟨1, 2, 0, 64, 16⟩, ⟨1, 3, 64, 64, 16⟩]),
      0 < q.1.alignment_requirement) p hp)⟩

/-! ## Facts about the block codec -/

theorem to_int32_of_lt (n : Nat) (h : n < 2 ^ 31) : to_int32 n = (n : Int) := by
  unfold to_int32
  have h1 : n % 2 ^ 32 = n := Nat.mod_eq_of_lt (by omega)
  rw [h1, if_pos h]

theorem to_size_t_natCast (n : Nat) (h : n < 2 ^ 64) : to_size_t (n : Int) = n := by
  unfold to_size_t
  have h1 : (n : Int) % 2 ^ 64 = (n : Int) := Int.emod_eq_of_lt (by omega) (by exact_mod_cast h)
  rw [h1]
  simp

theorem to_size_t_to_int32_of_lt (n : Nat) (h : n < 2 ^ 31) : to_size_t (to_int32 n) = n := by
  rw [to_int32_of_lt n h, to_size_t_natCast n (by omega)]

theorem to_int32_error (r : Nat) (h1 : ZSTD_isError r) (h2 : r < 2 ^ 64) : to_int32 r < 0 := by
  unfold ZSTD_isError at h1
  unfold to_int32
  norm_num at h1 h2 ⊢
  have h3 : ¬ r % 4294967296 < 2147483648 := by omega
  rw [if_neg h3]
  omega

theorem storedZstd_sized : storedZstd.Sized := by
  constructor
  · intro cap src n level
    simp only [storedZstd]
    split
    · rename_i h
      exact ⟨h.2.2, Or.inr ⟨h.1, by simp [h.2.1]⟩⟩
    · exact ⟨by norm_num, Or.inl (by simp [ZSTD_isError])⟩
  · intro cap src n
    simp only [storedZstd]
    split
    · rename_i h
      exact ⟨h.2.2, Or.inr ⟨h.1, by simp [h.2.1]⟩⟩
    · exact ⟨by norm_num, Or.inl (by simp [ZSTD_isError])⟩

theorem storedZstd_lossless : storedZstd.Lossless := by
  refine ⟨storedZstd_sized, ?_⟩
  intro cap src n level memory dst_capacity hne hn hcap hmem
  simp only [storedZstd] at hne hmem ⊢
  split at hne
  · rename_i h
    rw [if_pos h] at hmem ⊢
    simp only at hmem ⊢
    have hlen : n ≤ memory.length := by
      have := congrArg List.length hmem
      simp only [List.length_take] at this
      omega
    rw [if_pos ⟨hcap, hlen, h.2.2⟩, hmem]
  · exact absurd (by simp [ZSTD_isError]) hne

/-- The value `Decompress` returns: zero for a null output vector, otherwise the return value of
`ZSTD_decompress` read as an `int` when that is positive, and zero when it is not. -/
theorem Decompress_returns (zstd : ZstdLibrary) (compressed_size : Nat)
    (compressed_data : List UInt8) (expected_uncompressed_size : Nat) (vector : List UInt8) :
    (Decompress zstd compressed_size compressed_data expected_uncompressed_size none).1 = 0 ∧
    (Decompress zstd compressed_size compressed_data expected_uncompressed_size (some vector)).1 =
      if to_int32 (zstd.ZSTD_decompress (to_size_t (to_int32 expected_uncompressed_size))
          compressed_data (to_size_t (to_int32 compressed_size))).1 > 0 then
        to_size_t (to_int32 (zstd.ZSTD_decompress (to_size_t (to_int32 expected_uncompressed_size))
          compressed_data (to_size_t (to_int32 compressed_size))).1)
      else 0 := by
  constructor <;> rfl

theorem rawBlockZstd_sized : rawBlockZstd.Sized := by
  constructor
  · intro cap src n level
    simp only [rawBlockZstd]
    split
    · rename_i h
      split
      · rename_i hcap
        refine ⟨by omega, Or.inr ⟨hcap, ?_⟩⟩
        simp [raw_frame_start, h.1]
      · exact ⟨by norm_num, Or.inl (by simp [ZSTD_isError])⟩
    · exact ⟨by norm_num, Or.inl (by simp [ZSTD_isError])⟩
  · intro cap src n
    simp only [rawBlockZstd]
    split
    · rename_i content_size b0 b1 b2 content hshape
      split
      · rename_i h
        have hbyte : content_size.toNat < 256 := content_size.toNat_lt
        split
        · rename_i hcap
          exact ⟨by omega, Or.inr ⟨hcap, h.2.2.2.2.2⟩⟩
        · exact ⟨by norm_num, Or.inl (by simp [ZSTD_isError])⟩
      · exact ⟨by norm_num, Or.inl (by simp [ZSTD_isError])⟩
    · exact ⟨by norm_num, Or.inl (by simp [ZSTD_isError])⟩

/-- Claim C5, amended: for every compressed input and every `expected_uncompressed_size` with
`0 < expected_uncompressed_size < 2^31`, and a decoder whose return value is an error code or a
size within the capacity it is given, a decode that yields a number of bytes different from
`expected_uncompressed_size` makes `Decompress` return exactly this: zero when the decoder
failed, and otherwise the number of bytes the decoder produced and stored (zero when it produced
nothing). That value is different from `expected_uncompressed_size`. -/
theorem Decompress_size_mismatch (zstd : ZstdLibrary) (compressed_size : Nat)
    (compressed_data : List UInt8) (expected_uncompressed_size : Nat) (vector : List UInt8)
    (hz : zstd.Sized)
    (hpos : 0 < expected_uncompressed_size) (hlt : expected_uncompressed_size < 2 ^ 31)
    (hmismatch : (zstd.ZSTD_decompress (to_size_t (to_int32 expected_uncompressed_size))
      compressed_data (to_size_t (to_int32 compressed_size))).1 ≠ expected_uncompressed_size) :
    (Decompress zstd compressed_size compressed_data expected_uncompressed_size (some vector)).1 =
        (if ZSTD_isError (zstd.ZSTD_decompress (to_size_t (to_int32 expected_uncompressed_size))
            compressed_data (to_size_t (to_int32 compressed_size))).1 then 0
          else (zstd.ZSTD_decompress (to_size_t (to_int32 expected_uncompressed_size))
            compressed_data (to_size_t (to_int32 compressed_size))).1) ∧
      (¬ ZSTD_isError (zstd.ZSTD_decompress (to_size_t (to_int32 expected_uncompressed_size))
            compressed_data (to_size_t (to_int32 compressed_size))).1 →
        (Decompress zstd compressed_size compressed_data expected_uncompressed_size
            (some vector)).1 =
          (zstd.ZSTD_decompress (to_size_t (to_int32 expected_uncompressed_size))
            compressed_data (to_size_t (to_int32 compressed_size))).2.length) ∧
      (Decompress zstd compressed_size compressed_data expected_uncompressed_size
          (some vector)).1 ≠ expected_uncompressed_size := by
  rw [(Decompress_returns zstd compressed_size compressed_data expected_uncompressed_size vector).2]
  have hc := hz.decompress_size (to_size_t (to_int32 expected_uncompressed_size)) compressed_data
    (to_size_t (to_int32 compressed_size))
  generalize zstd.ZSTD_decompress (to_size_t (to_int32 expected_uncompressed_size))
      compressed_data (to_size_t (to_int32 compressed_size)) = result at hc hmismatch ⊢
  rw [to_size_t_to_int32_of_lt _ hlt] at hc
  rcases hc with ⟨hr, herr | ⟨hle, hlen⟩⟩
  · have hneg := to_int32_error result.1 herr hr
    rw [if_neg (by omega), if_pos herr]
    exact ⟨rfl, fun h => absurd herr h, by omega⟩
  · have hr31 : result.1 < 2 ^ 31 := by omega
    have hnerr : ¬ ZSTD_isError result.1 := by
      unfold ZSTD_isError
      norm_num at hr31 ⊢
      omega
    have hvalue : (if to_int32 result.1 > 0 then to_size_t (to_int32 result.1) else 0) =
        result.1 := by
      rw [to_int32_of_lt _ hr31, to_size_t_natCast _ hr]
      split
      · rfl
      · omega
    rw [hvalue, if_neg hnerr]
    exact ⟨rfl, fun _ => hlen.symm, hmismatch⟩

/-- Claim C5, amended, at the frame zstd writes for the bytes 1, 2, 3, decoded with an expected
size of ten: `Decompress` returns 3, the number of bytes stored. -/
theorem Decompress_size_mismatch_witness :
    (Decompress rawBlockZstd 12 frame_of_1_2_3 10 (some (List.replicate 10 0))).1 =
        (if ZSTD_isError (rawBlockZstd.ZSTD_decompress (to_size_t (to_int32 10)) frame_of_1_2_3
            (to_size_t (to_int32 12))).1 then 0
          else (rawBlockZstd.ZSTD_decompress (to_size_t (to_int32 10)) frame_of_1_2_3
            (to_size_t (to_int32 12))).1) ∧
      (Decompress rawBlockZstd 12 frame_of_1_2_3 10 (some (List.replicate 10 0))).1 ≠ 10 :=
  have h := Decompress_size_mismatch rawBlockZstd 12 frame_of_1_2_3 10 (List.replicate 10 0)
    rawBlockZstd_sized (by decide) (by decide) (by decide)
  ⟨h.1, h.2.2⟩

/-- Claim C5 fails as stated: handed the twelve-byte frame that zstd writes for the bytes
1, 2, 3 and an expected size of ten, the decoder produces three bytes, and `Decompress` returns
3, a successful size, where the claim says 0. -/
theorem Decompress_short_decode_returns_size :
    (rawBlockZstd.ZSTD_decompress (to_size_t (to_int32 10)) frame_of_1_2_3
      (to_size_t (to_int32 12))) = (3, [1, 2, 3]) ∧
    Decompress rawBlockZstd 12 frame_of_1_2_3 10 (some (List.replicate 10 0)) =
      (3, some [1, 2, 3, 0, 0, 0, 0, 0, 0, 0]) ∧
    rawBlockZstd.ZSTD_compress (rawBlockZstd.ZSTD_COMPRESSBOUND 3) [1, 2, 3] 3 1 =
      (12, frame_of_1_2_3) := by
  decide

/-- Claim C6: for a payload `data` of `n > 0` bytes, with `n` and the compress bound of `n` below
`2^31`, and a lossless zstd pair, if `Compress(n, data, &c)` returns `k > 0` and leaves the vector
`c'`, then `Decompress(k, c', n, &out)` with an output vector of at least `n` bytes returns `n`
and the first `n` bytes of the output vector are `data` (its size is unchanged). -/
theorem Compress_Decompress_round_trip (zstd : ZstdLibrary) (n : Nat) (data : List UInt8)
    (c : List UInt8) (k : Nat) (c' : List UInt8) (out : List UInt8)
    (hz : zstd.Lossless) (hn : 0 < n) (hdata : data.length = n) (hn31 : n < 2 ^ 31)
    (hbound : zstd.ZSTD_COMPRESSBOUND n < 2 ^ 31)
    (hcompress : Compress zstd n data (some c) = (k, some c')) (hk : 0 < k)
    (hout : n ≤ out.length) :
    ∃ out', Decompress zstd k c' n (some out) = (n, some out') ∧ out'.take n = data ∧
      out'.length = out.length := by
  simp only [Compress, to_size_t_to_int32_of_lt _ hn31, to_size_t_to_int32_of_lt _ hbound,
    Prod.mk.injEq, Option.some.injEq] at hcompress
  obtain ⟨hk_eq, hc'⟩ := hcompress
  have hs := hz.sized.compress_size (zstd.ZSTD_COMPRESSBOUND n) data n 1
  have hrt := hz.round_trip (zstd.ZSTD_COMPRESSBOUND n) data n 1
  generalize zstd.ZSTD_compress (zstd.ZSTD_COMPRESSBOUND n) data n 1 = res at hk_eq hc' hs hrt
  obtain ⟨hr, herr | ⟨hle, hlen⟩⟩ := hs
  · have hneg := to_int32_error res.1 herr hr
    rw [if_neg (by omega)] at hk_eq
    omega
  · have hr31 : res.1 < 2 ^ 31 := by omega
    rw [to_int32_of_lt _ hr31, to_size_t_natCast _ hr] at hk_eq
    have hk' : k = res.1 := by
      split at hk_eq
      · exact hk_eq.symm
      · omega
    have hnerr : ¬ ZSTD_isError res.1 := by
      unfold ZSTD_isError
      norm_num at hr31 ⊢
      omega
    have htake : c'.take res.1 = res.2 := by
      rw [← hc', store_at_start, ← hlen]
      simp
    have hdec := hrt c' n hnerr (by omega) (le_refl n) htake
    refine ⟨store_at_start out (data.take n), ?_, ?_, ?_⟩
    · have hpos : to_int32 n > 0 := by
        rw [to_int32_of_lt n hn31]
        exact_mod_cast hn
      simp only [Decompress]
      rw [to_size_t_to_int32_of_lt n hn31, hk', to_size_t_to_int32_of_lt _ hr31, hdec]
      simp only []
      rw [if_pos hpos, to_size_t_to_int32_of_lt n hn31]
    · rw [← hdata]
      simp [store_at_start]
    · simp only [store_at_start, List.length_append, List.length_take, List.length_drop]
      omega

/-- Claim C6 at the payload 1, 2, 3 with the stored-frame stand-in for zstd. -/
theorem Compress_Decompress_round_trip_witness :
    ∃ out', Decompress storedZstd 3 [1, 2, 3] 3 (some [9, 9, 9, 9]) = (3, some out') ∧
      out'.take 3 = [1, 2, 3] ∧ out'.length = [9, 9, 9, 9].length :=
  Compress_Decompress_round_trip storedZstd 3 [1, 2, 3] [] 3 [1, 2, 3] [9, 9, 9, 9]
    storedZstd_lossless (by decide) (by decide) (by decide) (by decide) (by decide) (by decide)
    (by decide)

/-! ## Facts about `main` -/

theorem main_of_valid_arguments (env : Environment)
    (h1 : env.CheckOptionPrintVersion = false) (h2 : env.CheckOptionPrintUsage = false)
    (h3 : env.IsInvalid = false) (h4 : env.GetPositionalArgumentsCount = 1) :
    main env =
      { trace := [Event.Log_Init, Event.ProcessDisableDebugPopup] ++
          (catch_and_return (try_block env)).trace
        outcome := (catch_and_return (try_block env)).outcome } := by
  simp [main, h1, h2, h3, h4]

theorem try_block_of_both_modes (env : Environment) (h : reaches_option_check env)
    (hboth : both_modes_selected env.GetReplayOptions) :
    try_block env =
      { trace := [Event.file_processor_Initialize true, Event.GetReplayOptions,
          Event.console Message.mutually_exclusive_arguments]
        return_code := -1
        thrown := none } := by
  obtain ⟨-, -, -, -, h5, h6⟩ := h
  obtain ⟨app, happ⟩ := Option.isSome_iff_exists.mp h6
  unfold both_modes_selected at hboth
  simp only [try_block, h5, happ]
  simp [hboth]

theorem try_block_of_replay (env : Environment) (h : reaches_option_check env)
    (hnot : ¬ both_modes_selected env.GetReplayOptions) :
    try_block env =
      { replay_trace env env.GetReplayOptions { consumers := [] } with
        trace := [Event.file_processor_Initialize true, Event.GetReplayOptions] ++
          (replay_trace env env.GetReplayOptions { consumers := [] }).trace } := by
  obtain ⟨-, -, -, -, h5, h6⟩ := h
  obtain ⟨app, happ⟩ := Option.isSome_iff_exists.mp h6
  unfold both_modes_selected at hnot
  simp only [try_block, h5, happ]
  simp [hnot]

/-- With both modes selected the `try` block never gets to a pass, whatever else happens. -/
theorem try_block_both_modes (env : Environment)
    (hboth : both_modes_selected env.GetReplayOptions) :
    (try_block env).thrown = none ∧ (try_block env).return_code = -1 ∧
      ∀ e ∈ (try_block env).trace, e.starts_pass = false := by
  unfold both_modes_selected at hboth
  unfold try_block
  split
  · simp [Event.starts_pass]
  · split
    · simp [Event.starts_pass]
    · simp [hboth, Event.starts_pass]

/-- Claim C1: in every run of `main` in which `replay_options` selects both two-pass portability
and single-pass memory translation, no pass starts (`run_first_pass_replay_portability` is not
called, no consumer is added to a decoder, neither `ProcessAllFrames` nor `application->Run()` is
invoked) and `main` returns -1: whenever it returns, and it does return once argument handling
(`desktop_main.cpp:97-107`) has not left the process through `exit`. A run that gets to the
mutual-exclusion test makes exactly the calls listed, the fatal log line among them. -/
theorem main_rejects_both_modes (env : Environment)
    (hboth : both_modes_selected env.GetReplayOptions) :
    (∀ e ∈ (main env).trace, e.starts_pass = false) ∧
    (∀ code, (main env).outcome = Outcome.returned code → code = -1) ∧
    (env.CheckOptionPrintVersion = false → env.CheckOptionPrintUsage = false →
      env.IsInvalid = false → env.GetPositionalArgumentsCount = 1 →
      (main env).outcome = Outcome.returned (-1)) ∧
    (reaches_option_check env →
      (main env).trace =
        [Event.Log_Init, Event.ProcessDisableDebugPopup, Event.file_processor_Initialize true,
         Event.GetReplayOptions, Event.console Message.mutually_exclusive_arguments,
         Event.Log_Release]) := by
  obtain ⟨hthrown, hcode, htrace⟩ := try_block_both_modes env hboth
  have hcatch : catch_and_return (try_block env) =
      { trace := (try_block env).trace ++ [Event.Log_Release]
        outcome := Outcome.returned (-1) } := by
    simp only [catch_and_return, hthrown, hcode]
  refine ⟨?_, ?_, ?_, ?_⟩
  · unfold main
    split
    · simp [Event.starts_pass]
    · split
      · simp [Event.starts_pass]
      · simp only [hcatch]
        intro e he
        simp only [List.mem_append, List.mem_cons, List.mem_singleton, List.not_mem_nil,
          or_false] at he
        rcases he with (rfl | rfl) | he | rfl
        · rfl
        · rfl
        · exact htrace e he
        · rfl
  · intro code
    unfold main
    split
    · simp
    · split
      · simp
      · simp only [hcatch]
        intro h
        simp only [Outcome.returned.injEq] at h
        exact h.symm
  · intro h1 h2 h3 h4
    rw [main_of_valid_arguments env h1 h2 h3 h4, hcatch]
  · intro hreach
    have hr := hreach
    obtain ⟨h1, h2, h3, h4, -, -⟩ := hr
    rw [main_of_valid_arguments env h1 h2 h3 h4, hcatch, try_block_of_both_modes env hreach hboth]
    rfl

/-- Claim C1 at the example run with `-m` and the two-pass option both given. -/
theorem main_rejects_both_modes_witness :
    (∀ e ∈ (main { example_environment with
        GetReplayOptions :=
          { create_resource_allocator := ResourceAllocatorFactory.translating 1
            enable_multipass_replay_portability := true } }).trace, e.starts_pass = false) ∧
    (main { example_environment with
        GetReplayOptions :=
          { create_resource_allocator := ResourceAllocatorFactory.translating 1
            enable_multipass_replay_portability := true } }).outcome = Outcome.returned (-1) :=
  have h := main_rejects_both_modes
    { example_environment with
      GetReplayOptions :=
        { create_resource_allocator := ResourceAllocatorFactory.translating 1
          enable_multipass_replay_portability := true } }
    (by decide)
  ⟨h.1, h.2.2.1 rfl rfl rfl rfl⟩

/-! ### The decode loop -/

theorem dispatch_calls_fatal (consumers : List Consumer) (message : String)
    (rest : List CallResult) :
    ∀ (replayed call : Nat),
      dispatch_calls consumers call
          (List.replicate replayed CallResult.replayed ++ CallResult.fatal message :: rest) =
        ((List.range' call replayed).map (fun i => Event.dispatch i consumers) ++
            [Event.dispatch (call + replayed) consumers, Event.fatal_error_handler message],
          some (Thrown.runtime_error message)) := by
  intro replayed
  induction replayed with
  | zero => intro call; simp [dispatch_calls]
  | succ k ih =>
    intro call
    have h := ih (call + 1)
    rw [show call + 1 + k = call + (k + 1) by omega] at h
    rw [List.replicate_succ, List.cons_append]
    simp only [dispatch_calls, h, List.range'_succ, List.map_cons, List.cons_append]

theorem dispatch_calls_replayed (consumers : List Consumer) :
    ∀ (calls : List CallResult) (call : Nat), (∀ c ∈ calls, c = CallResult.replayed) →
      dispatch_calls consumers call calls =
        ((List.range' call calls.length).map (fun i => Event.dispatch i consumers), none) := by
  intro calls
  induction calls with
  | nil => intro call _; simp [dispatch_calls]
  | cons c cs ih =>
    intro call h
    have hc : c = CallResult.replayed := h c (List.mem_cons_self _ _)
    subst hc
    have hcs : ∀ c ∈ cs, c = CallResult.replayed := fun c hc => h c (List.mem_cons_of_mem _ hc)
    simp [dispatch_calls, ih (call + 1) hcs, List.range'_succ]

theorem dispatch_calls_events (consumers : List Consumer) :
    ∀ (calls : List CallResult) (call : Nat), ∀ e ∈ (dispatch_calls consumers call calls).1,
      (∃ i, e = Event.dispatch i consumers) ∨ ∃ message, e = Event.fatal_error_handler message := by
  intro calls
  induction calls with
  | nil => intro call e he; simp [dispatch_calls] at he
  | cons c cs ih =>
    intro call e he
    cases c with
    | replayed =>
      simp only [dispatch_calls, List.mem_cons] at he
      rcases he with rfl | he
      · exact Or.inl ⟨call, rfl⟩
      · exact ih _ e he
    | fatal message =>
      simp only [dispatch_calls, List.mem_cons, List.mem_singleton, List.not_mem_nil,
        or_false] at he
      rcases he with rfl | rfl
      · exact Or.inl ⟨call, rfl⟩
      · exact Or.inr ⟨message, rfl⟩
    | unhandled =>
      simp only [dispatch_calls, List.mem_singleton] at he
      exact Or.inl ⟨call, he⟩

theorem main_of_replay (env : Environment) (h : reaches_option_check env)
    (hnot : ¬ both_modes_selected env.GetReplayOptions) :
    main env =
      { trace := pass_one env ++
          pass_two_start
            (run_first_pass_replay_portability env env.GetReplayOptions { consumers := [] } none) ++
          (after_run env).trace
        outcome := (after_run env).outcome } := by
  have hr := h
  obtain ⟨h1, h2, h3, h4, -, -⟩ := hr
  rw [main_of_valid_arguments env h1 h2 h3 h4, try_block_of_replay env h hnot]
  simp only [replay_trace, VulkanDecoder.AddConsumer, List.nil_append, after_run, pass_one,
    pass_two_start]
  generalize dispatch_calls [Consumer.replay_consumer] 0 env.replay_calls = run
  rcases run with ⟨events, _ | what | _⟩
  · simp only [catch_and_return]
    split_ifs <;> simp
  · simp [catch_and_return]
  · simp [catch_and_return]

theorem first_pass_disabled (env : Environment) (replay_options : ReplayOptions)
    (decoder : VulkanDecoder) (pointer : Option VulkanResourceTrackingConsumer)
    (h : replay_options.enable_multipass_replay_portability = false) :
    run_first_pass_replay_portability env replay_options decoder pointer =
      { trace := [], resource_tracking_consumer := pointer } := by
  simp [run_first_pass_replay_portability, h]

theorem first_pass_enabled (env : Environment) (replay_options : ReplayOptions)
    (decoder : VulkanDecoder) (pointer : Option VulkanResourceTrackingConsumer)
    (h : replay_options.enable_multipass_replay_portability = true) :
    run_first_pass_replay_portability env replay_options decoder pointer =
      { trace :=
          [Event.console Message.first_pass_start, Event.new_VulkanResourceTrackingConsumer] ++
          (if env.resource_tracking_Initialize then
            [Event.resource_tracking_Initialize true,
             Event.resource_tracking_decoder_AddConsumer Consumer.resource_tracking_consumer,
             Event.resource_tracking_AddDecoder
               (decoder.consumers ++ [Consumer.resource_tracking_consumer]),
             Event.resource_tracking_ProcessAllFrames env.resource_tracking_error_state,
             Event.resource_tracking_RemoveDecoder,
             Event.resource_tracking_decoder_RemoveConsumer Consumer.resource_tracking_consumer]
          else [Event.resource_tracking_Initialize false]) ++
          [Event.SortMemoriesBoundResourcesByOffset,
           Event.CalculateReplayBindingOffsetAndMemoryAllocationSize,
           Event.console Message.first_pass_done]
        resource_tracking_consumer :=
          some (gathered env).SortMemoriesBoundResourcesByOffset.CalculateReplayBindingOffsetAndMemoryAllocationSize } := by
  simp only [run_first_pass_replay_portability, h, gathered, VulkanDecoder.AddConsumer]
  cases env.resource_tracking_Initialize <;> simp

theorem first_pass_events (env : Environment) (replay_options : ReplayOptions)
    (decoder : VulkanDecoder) (pointer : Option VulkanResourceTrackingConsumer) :
    ∀ e ∈ (run_first_pass_replay_portability env replay_options decoder pointer).trace,
      e.in_pass_one = true := by
  intro e he
  cases h : replay_options.enable_multipass_replay_portability
  · rw [first_pass_disabled env replay_options decoder pointer h] at he
    simp at he
  · rw [first_pass_enabled env replay_options decoder pointer h] at he
    cases hi : env.resource_tracking_Initialize <;> simp [hi] at he <;>
      rcases he with rfl | rfl | rfl | rfl | rfl | rfl | rfl | rfl | rfl | rfl | rfl <;> rfl

theorem after_run_events (env : Environment) :
    ∀ e ∈ (after_run env).trace,
      (∃ i, e = Event.dispatch i [Consumer.replay_consumer]) ∨
      (∃ message, e = Event.fatal_error_handler message) ∨
      (∃ m, e = Event.console m) ∨ e = Event.Log_Release := by
  intro e he
  have hd := dispatch_calls_events [Consumer.replay_consumer] env.replay_calls 0 e
  unfold after_run at he
  split at he
  · simp only [List.mem_append, List.mem_cons, List.mem_singleton, List.not_mem_nil,
      or_false] at he
    rcases he with he | rfl | rfl
    · rcases hd he with h | h
      · exact Or.inl h
      · exact Or.inr (Or.inl h)
    · exact Or.inr (Or.inr (Or.inl ⟨_, rfl⟩))
    · exact Or.inr (Or.inr (Or.inr rfl))
  · simp only [List.mem_append, List.mem_cons, List.mem_singleton, List.not_mem_nil,
      or_false] at he
    rcases he with he | rfl | rfl
    · rcases hd he with h | h
      · exact Or.inl h
      · exact Or.inr (Or.inl h)
    · exact Or.inr (Or.inr (Or.inl ⟨_, rfl⟩))
    · exact Or.inr (Or.inr (Or.inr rfl))
  · split_ifs at he <;>
    · simp only [List.mem_append, List.mem_cons, List.mem_singleton, List.not_mem_nil,
        or_false] at he
      rcases he with he | rfl | rfl
      · rcases hd he with h | h
        · exact Or.inl h
        · exact Or.inr (Or.inl h)
      · exact Or.inr (Or.inr (Or.inl ⟨_, rfl⟩))
      · exact Or.inr (Or.inr (Or.inr rfl))

theorem pass_one_events (env : Environment) :
    ∀ e ∈ pass_one env,
      e.in_pass_one = true ∨ e = Event.Log_Init ∨ e = Event.ProcessDisableDebugPopup ∨
      e = Event.file_processor_Initialize true ∨ e = Event.GetReplayOptions ∨
      e = Event.call_run_first_pass_replay_portability := by
  intro e he
  simp only [pass_one, List.mem_append, List.mem_cons, List.mem_singleton, List.not_mem_nil,
    or_false] at he
  rcases he with (rfl | rfl | rfl | rfl | rfl) | he
  · exact Or.inr (Or.inl rfl)
  · exact Or.inr (Or.inr (Or.inl rfl))
  · exact Or.inr (Or.inr (Or.inr (Or.inl rfl)))
  · exact Or.inr (Or.inr (Or.inr (Or.inr (Or.inl rfl))))
  · exact Or.inr (Or.inr (Or.inr (Or.inr (Or.inr rfl))))
  · exact Or.inl (first_pass_events env _ _ _ e he)

theorem after_run_outcome (env : Environment) :
    (after_run env).outcome =
      Outcome.returned
        (if (dispatch_calls [Consumer.replay_consumer] 0 env.replay_calls).2.isSome = true ∨
            env.GetErrorState ≠ ErrorState.kErrorNone then -1 else 0) := by
  unfold after_run
  split
  · rename_i h; simp [h]
  · rename_i h; simp [h]
  · rename_i h
    simp only [h, Option.isSome_none, Bool.false_eq_true, false_or]
    split_ifs <;> simp_all

/-- Claim C3: `run_first_pass_replay_portability` enters pass 1 exactly when
`enable_multipass_replay_portability` is set. When it is not, no call is made (no frames, no
consumer) and the pointer is what it was, `nullptr` in `main`. When it is, a tracking consumer is
created and returned, and the decoder handed to the pass-1 file processor (the copy of the fresh
decoder of `main`) holds exactly the tracking consumer; with a file processor that initialises,
the calls are the listed ones. `main`, once past the mutual-exclusion test, calls the function
with a fresh decoder and a null pointer. -/
theorem first_pass_entered_iff_requested (env : Environment)
    (create_resource_allocator : ResourceAllocatorFactory) (decoder : VulkanDecoder)
    (pointer : Option VulkanResourceTrackingConsumer) :
    run_first_pass_replay_portability env
        { create_resource_allocator := create_resource_allocator
          enable_multipass_replay_portability := false } decoder pointer =
      { trace := [], resource_tracking_consumer := pointer } ∧
    (run_first_pass_replay_portability env
        { create_resource_allocator := create_resource_allocator
          enable_multipass_replay_portability := true } decoder pointer).resource_tracking_consumer =
      some (gathered env).SortMemoriesBoundResourcesByOffset.CalculateReplayBindingOffsetAndMemoryAllocationSize ∧
    Event.new_VulkanResourceTrackingConsumer ∈
      (run_first_pass_replay_portability env
        { create_resource_allocator := create_resource_allocator
          enable_multipass_replay_portability := true } decoder pointer).trace ∧
    (∀ consumers, Event.resource_tracking_AddDecoder consumers ∈
        (run_first_pass_replay_portability env
          { create_resource_allocator := create_resource_allocator
            enable_multipass_replay_portability := true } { consumers := [] } pointer).trace →
      consumers = [Consumer.resource_tracking_consumer]) ∧
    (env.resource_tracking_Initialize = true →
      (run_first_pass_replay_portability env
          { create_resource_allocator := create_resource_allocator
            enable_multipass_replay_portability := true } { consumers := [] } pointer).trace =
        [Event.console Message.first_pass_start,
         Event.new_VulkanResourceTrackingConsumer,
         Event.resource_tracking_Initialize true,
         Event.resource_tracking_decoder_AddConsumer Consumer.resource_tracking_consumer,
         Event.resource_tracking_AddDecoder [Consumer.resource_tracking_consumer],
         Event.resource_tracking_ProcessAllFrames env.resource_tracking_error_state,
         Event.resource_tracking_RemoveDecoder,
         Event.resource_tracking_decoder_RemoveConsumer Consumer.resource_tracking_consumer,
         Event.SortMemoriesBoundResourcesByOffset,
         Event.CalculateReplayBindingOffsetAndMemoryAllocationSize,
         Event.console Message.first_pass_done]) ∧
    (reaches_option_check env → ¬ both_modes_selected env.GetReplayOptions →
      ∃ after, (main env).trace =
        [Event.Log_Init, Event.ProcessDisableDebugPopup, Event.file_processor_Initialize true,
         Event.GetReplayOptions, Event.call_run_first_pass_replay_portability] ++
        (run_first_pass_replay_portability env env.GetReplayOptions
          { consumers := [] } none).trace ++ after) := by
  refine ⟨first_pass_disabled _ _ _ _ rfl, ?_, ?_, ?_, ?_, ?_⟩
  · rw [first_pass_enabled _ _ _ _ rfl]
  · rw [first_pass_enabled _ _ _ _ rfl]
    simp
  · intro consumers h
    rw [first_pass_enabled _ _ _ _ rfl] at h
    cases hi : env.resource_tracking_Initialize <;> simp [hi] at h
    exact h
  · intro hi
    rw [first_pass_enabled _ _ _ _ rfl]
    simp [hi]
  · intro hreach hnot
    refine ⟨pass_two_start
      (run_first_pass_replay_portability env env.GetReplayOptions { consumers := [] } none) ++
      (after_run env).trace, ?_⟩
    rw [main_of_replay env hreach hnot]
    simp [pass_one]

/-- Claim C3 at the example run with two-pass portability requested. -/
theorem first_pass_entered_iff_requested_witness :
    ∃ after, (main two_pass_environment).trace =
      [Event.Log_Init, Event.ProcessDisableDebugPopup, Event.file_processor_Initialize true,
       Event.GetReplayOptions, Event.call_run_first_pass_replay_portability] ++
      (run_first_pass_replay_portability two_pass_environment
        two_pass_environment.GetReplayOptions { consumers := [] } none).trace ++ after :=
  (first_pass_entered_iff_requested two_pass_environment
    ResourceAllocatorFactory.CreateDefaultAllocator { consumers := [] } none).2.2.2.2.2
    (by decide) (by decide)

/-- Claim C4: in every run of `main` that gets to the replay, `application->Run()` is called
once, with the replay consumer as the only consumer registered with the decoder, and the replay
consumer is constructed once, right before. In a two-pass run the construction follows
`SortMemoriesBoundResourcesByOffset` and then `CalculateReplayBindingOffsetAndMemoryAllocationSize`,
neither of which is called earlier, and the replay consumer is given the tracking consumer in the
state the two calls, in that order, left it in. -/
theorem replay_consumer_after_remap (env : Environment) (hreach : reaches_option_check env)
    (hnot : ¬ both_modes_selected env.GetReplayOptions) :
    ∃ before after,
      (main env).trace =
        before ++
        [Event.new_VulkanReplayConsumer
           (run_first_pass_replay_portability env env.GetReplayOptions
             { consumers := [] } none).resource_tracking_consumer,
         Event.SetFatalErrorHandler,
         Event.decoder_AddConsumer Consumer.replay_consumer,
         Event.file_processor_AddDecoder [Consumer.replay_consumer],
         Event.SetPauseFrame,
         Event.CheckActiveLayers,
         Event.application_Run [Consumer.replay_consumer]] ++ after ∧
      (∀ e ∈ before ++ after, ∀ consumers, e ≠ Event.application_Run consumers) ∧
      (∀ e ∈ before ++ after, ∀ tracking, e ≠ Event.new_VulkanReplayConsumer tracking) ∧
      (env.GetReplayOptions.enable_multipass_replay_portability = true →
        (run_first_pass_replay_portability env env.GetReplayOptions
            { consumers := [] } none).resource_tracking_consumer =
          some (gathered env).SortMemoriesBoundResourcesByOffset.CalculateReplayBindingOffsetAndMemoryAllocationSize ∧
        ∃ earlier, before = earlier ++
            [Event.SortMemoriesBoundResourcesByOffset,
             Event.CalculateReplayBindingOffsetAndMemoryAllocationSize,
             Event.console Message.first_pass_done] ∧
          Event.SortMemoriesBoundResourcesByOffset ∉ earlier ∧
          Event.CalculateReplayBindingOffsetAndMemoryAllocationSize ∉ earlier) := by
  refine ⟨pass_one env, (after_run env).trace, ?_, ?_, ?_, ?_⟩
  · rw [main_of_replay env hreach hnot]
    rfl
  · intro e he consumers heq
    subst heq
    rcases List.mem_append.mp he with h | h
    · rcases pass_one_events env _ h with h | h | h | h | h | h <;> simp [Event.in_pass_one] at h
    · rcases after_run_events env _ h with ⟨_, h⟩ | ⟨_, h⟩ | ⟨_, h⟩ | h <;> simp at h
  · intro e he tracking heq
    subst heq
    rcases List.mem_append.mp he with h | h
    · rcases pass_one_events env _ h with h | h | h | h | h | h <;> simp [Event.in_pass_one] at h
    · rcases after_run_events env _ h with ⟨_, h⟩ | ⟨_, h⟩ | ⟨_, h⟩ | h <;> simp at h
  · intro henable
    rw [first_pass_enabled _ _ _ _ henable]
    refine ⟨rfl, ?_⟩
    refine ⟨[Event.Log_Init, Event.ProcessDisableDebugPopup, Event.file_processor_Initialize true,
      Event.GetReplayOptions, Event.call_run_first_pass_replay_portability,
      Event.console Message.first_pass_start, Event.new_VulkanResourceTrackingConsumer] ++
      (if env.resource_tracking_Initialize then
        [Event.resource_tracking_Initialize true,
         Event.resource_tracking_decoder_AddConsumer Consumer.resource_tracking_consumer,
         Event.resource_tracking_AddDecoder [Consumer.resource_tracking_consumer],
         Event.resource_tracking_ProcessAllFrames env.resource_tracking_error_state,
         Event.resource_tracking_RemoveDecoder,
         Event.resource_tracking_decoder_RemoveConsumer Consumer.resource_tracking_consumer]
       else [Event.resource_tracking_Initialize false]), ?_, ?_, ?_⟩
    · rw [pass_one, first_pass_enabled _ _ _ _ henable]
      simp
    · cases env.resource_tracking_Initialize <;> simp
    · cases env.resource_tracking_Initialize <;> simp

/-- Claim C4 at the example run with two-pass portability requested. -/
theorem replay_consumer_after_remap_witness :
    ∃ before after,
      (main two_pass_environment).trace =
        before ++
        [Event.new_VulkanReplayConsumer
           (run_first_pass_replay_portability two_pass_environment
             two_pass_environment.GetReplayOptions
             { consumers := [] } none).resource_tracking_consumer,
         Event.SetFatalErrorHandler,
         Event.decoder_AddConsumer Consumer.replay_consumer,
         Event.file_processor_AddDecoder [Consumer.replay_consumer],
         Event.SetPauseFrame,
         Event.CheckActiveLayers,
         Event.application_Run [Consumer.replay_consumer]] ++ after :=
  (replay_consumer_after_remap two_pass_environment (by decide) (by decide)).imp
    fun _ h => h.imp fun _ h => h.1

theorem before_run_events (env : Environment) :
    ∀ e ∈ pass_one env ++
        [Event.new_VulkanReplayConsumer
           (run_first_pass_replay_portability env env.GetReplayOptions
             { consumers := [] } none).resource_tracking_consumer,
         Event.SetFatalErrorHandler,
         Event.decoder_AddConsumer Consumer.replay_consumer,
         Event.file_processor_AddDecoder [Consumer.replay_consumer],
         Event.SetPauseFrame,
         Event.CheckActiveLayers],
      (∀ i consumers, e ≠ Event.dispatch i consumers) ∧
      (∀ t s f, e ≠ Event.console (Message.fps t s f)) := by
  intro e he
  rcases List.mem_append.mp he with h | h
  · rcases pass_one_events env _ h with h | h | h | h | h | h
    · constructor
      · intro i consumers heq; subst heq; simp [Event.in_pass_one] at h
      · intro t s f heq; subst heq; simp [Event.in_pass_one] at h
    all_goals subst h; simp
  · simp only [List.mem_cons, List.mem_singleton, List.not_mem_nil, or_false] at h
    rcases h with rfl | rfl | rfl | rfl | rfl | rfl <;> simp

/-- Claim C7: when, during pass 2, the replay consumer invokes its fatal-error handler with
`message` at a call (after `replayed` calls that went through), `main` returns -1; the handler is
the last thing that happens in the pass: no call is dispatched after it, only the console line
of the `catch` and `Log::Release` follow, and the FPS line is not written. -/
theorem fatal_error_aborts_replay (env : Environment) (hreach : reaches_option_check env)
    (hnot : ¬ both_modes_selected env.GetReplayOptions) (replayed : Nat) (message : String)
    (rest : List CallResult)
    (hcalls : env.replay_calls =
      List.replicate replayed CallResult.replayed ++ CallResult.fatal message :: rest) :
    (main env).outcome = Outcome.returned (-1) ∧
    (∃ before,
      (main env).trace =
        before ++ [Event.application_Run [Consumer.replay_consumer]] ++
        (List.range replayed).map (fun i => Event.dispatch i [Consumer.replay_consumer]) ++
        [Event.dispatch replayed [Consumer.replay_consumer],
         Event.fatal_error_handler message,
         Event.console (Message.fatal_error message),
         Event.Log_Release] ∧
      (∀ e ∈ before, ∀ i consumers, e ≠ Event.dispatch i consumers) ∧
      (∀ e ∈ before, ∀ t s f, e ≠ Event.console (Message.fps t s f))) ∧
    (∀ e ∈ (main env).trace, ∀ t s f, e ≠ Event.console (Message.fps t s f)) := by
  have hd := dispatch_calls_fatal [Consumer.replay_consumer] message rest replayed 0
  rw [← hcalls] at hd
  have hafter : after_run env =
      { trace := (List.range replayed).map (fun i => Event.dispatch i [Consumer.replay_consumer]) ++
          [Event.dispatch replayed [Consumer.replay_consumer],
           Event.fatal_error_handler message,
           Event.console (Message.fatal_error message),
           Event.Log_Release]
        outcome := Outcome.returned (-1) } := by
    simp [after_run, hd, List.range_eq_range']
  have hmain := main_of_replay env hreach hnot
  rw [hafter] at hmain
  have hbefore := before_run_events env
  refine ⟨by rw [hmain], ⟨_, ?_, fun e he => (hbefore e he).1, fun e he => (hbefore e he).2⟩, ?_⟩
  · rw [hmain]
    simp [pass_two_start]
  · rw [hmain]
    intro e he t s f heq
    subst heq
    simp only [pass_two_start, List.mem_append, List.mem_cons, List.mem_singleton, List.mem_map,
      List.not_mem_nil, or_false] at he
    rcases he with (he | he) | he
    · rcases pass_one_events env _ he with h | h | h | h | h | h <;>
        simp [Event.in_pass_one] at h
    · simp at he
    · rcases he with ⟨_, _, h⟩ | h
      · simp at h
      · simp at h

/-- Claim C7 at the example run whose second call is fatal. -/
theorem fatal_error_aborts_replay_witness :
    (main fatal_environment).outcome = Outcome.returned (-1) ∧
    ∀ e ∈ (main fatal_environment).trace, ∀ t s f, e ≠ Event.console (Message.fps t s f) :=
  have h := fatal_error_aborts_replay fatal_environment (by decide) (by decide) 1 "device lost"
    [CallResult.replayed] rfl
  ⟨h.1, h.2.2⟩

theorem total_frames_start_one (f : Nat) (h1 : 0 < f) (h2 : f < 2 ^ 32) : total_frames f 1 = f := by
  unfold total_frames
  norm_num at h2 ⊢
  omega

/-- Claim C10: in every run of `main` that gets to `application->Run()` and comes back from it
without an exception, the return code is -1 if and only if the error state of the file processor
is not `kErrorNone`, and 0 otherwise. With zero frames and no error `main` returns 0 (and reports
that the file had no frames); with a final frame number `f > 0` (a `uint32_t`) and no error, the
reported total `(f - 1) + 1` is `f`. -/
theorem return_code_after_run (env : Environment) (hreach : reaches_option_check env)
    (hnot : ¬ both_modes_selected env.GetReplayOptions)
    (hrun : (dispatch_calls [Consumer.replay_consumer] 0 env.replay_calls).2 = none) :
    (main env).outcome =
      Outcome.returned (if env.GetErrorState = ErrorState.kErrorNone then 0 else -1) ∧
    ((main env).outcome = Outcome.returned (-1) ↔ env.GetErrorState ≠ ErrorState.kErrorNone) ∧
    (env.GetCurrentFrameNumber = 0 → env.GetErrorState = ErrorState.kErrorNone →
      (main env).outcome = Outcome.returned 0 ∧
      Event.console Message.no_frames ∈ (main env).trace) ∧
    (0 < env.GetCurrentFrameNumber → env.GetCurrentFrameNumber < 2 ^ 32 →
      env.GetErrorState = ErrorState.kErrorNone →
      total_frames env.GetCurrentFrameNumber 1 = env.GetCurrentFrameNumber ∧
      Event.console (Message.fps env.GetCurrentFrameNumber 1 env.GetCurrentFrameNumber) ∈
        (main env).trace) := by
  have hmain := main_of_replay env hreach hnot
  have hout : (main env).outcome =
      Outcome.returned (if env.GetErrorState = ErrorState.kErrorNone then 0 else -1) := by
    rw [hmain]
    simp only [after_run_outcome, hrun, Option.isSome_none, Bool.false_eq_true, false_or]
    cases env.GetErrorState <;> simp
  refine ⟨hout, ?_, ?_, ?_⟩
  · rw [hout]
    cases env.GetErrorState <;> simp
  · intro hf he
    refine ⟨by rw [hout, if_pos he], ?_⟩
    rw [hmain]
    simp [after_run, hrun, hf, he]
  · intro hpos hlt he
    have htotal := total_frames_start_one env.GetCurrentFrameNumber hpos hlt
    refine ⟨htotal, ?_⟩
    have hmod : env.GetCurrentFrameNumber % 2 ^ 32 = env.GetCurrentFrameNumber :=
      Nat.mod_eq_of_lt hlt
    rw [hmain]
    simp only [after_run, hrun, hmod, he, htotal]
    simp [hpos]

/-- Claim C10 at the example run: two frames, no error. -/
theorem return_code_after_run_witness :
    (main example_environment).outcome = Outcome.returned 0 ∧
    Event.console (Message.fps 2 1 2) ∈ (main example_environment).trace :=
  have h := return_code_after_run example_environment (by decide) (by decide) (by decide)
  ⟨h.1, (h.2.2.2 (by decide) (by decide) rfl).2⟩

/-- Claim C2, amended: in every two-pass run that gets to pass 1, an error of the pass-1 reader
does not halt the run. When its `Initialize` fails, pass 1 registers no consumer and processes no
frames; whether or not it fails, and whatever the error state after `ProcessAllFrames`,
`SortMemoriesBoundResourcesByOffset` and then `CalculateReplayBindingOffsetAndMemoryAllocationSize`
are called and pass 2 is attempted (replay consumer registered, `application->Run()` called).
The return code of `main` is -1 exactly when pass 2 throws or the error state of the file
processor of `main` after `application->Run()` is not `kErrorNone`, and 0 otherwise. -/
theorem first_pass_error_does_not_halt (env : Environment) (hreach : reaches_option_check env)
    (hdefault : env.GetReplayOptions.create_resource_allocator =
      ResourceAllocatorFactory.CreateDefaultAllocator)
    (henable : env.GetReplayOptions.enable_multipass_replay_portability = true) :
    (env.resource_tracking_Initialize = false →
      (run_first_pass_replay_portability env env.GetReplayOptions
          { consumers := [] } none).trace =
        [Event.console Message.first_pass_start,
         Event.new_VulkanResourceTrackingConsumer,
         Event.resource_tracking_Initialize false,
         Event.SortMemoriesBoundResourcesByOffset,
         Event.CalculateReplayBindingOffsetAndMemoryAllocationSize,
         Event.console Message.first_pass_done]) ∧
    (∃ before after,
      (main env).trace =
        before ++
        [Event.SortMemoriesBoundResourcesByOffset,
         Event.CalculateReplayBindingOffsetAndMemoryAllocationSize,
         Event.console Message.first_pass_done,
         Event.new_VulkanReplayConsumer
           (some (gathered env).SortMemoriesBoundResourcesByOffset.CalculateReplayBindingOffsetAndMemoryAllocationSize),
         Event.SetFatalErrorHandler,
         Event.decoder_AddConsumer Consumer.replay_consumer,
         Event.file_processor_AddDecoder [Consumer.replay_consumer],
         Event.SetPauseFrame,
         Event.CheckActiveLayers,
         Event.application_Run [Consumer.replay_consumer]] ++ after) ∧
    (main env).outcome =
      Outcome.returned
        (if (dispatch_calls [Consumer.replay_consumer] 0 env.replay_calls).2.isSome = true ∨
            env.GetErrorState ≠ ErrorState.kErrorNone then -1 else 0) := by
  have hnot : ¬ both_modes_selected env.GetReplayOptions := fun h => h.1 hdefault
  have hfirst := first_pass_enabled env env.GetReplayOptions { consumers := [] } none henable
  have hmain := main_of_replay env hreach hnot
  refine ⟨?_, ?_, ?_⟩
  · intro hinit
    rw [hfirst]
    simp [hinit]
  · refine ⟨[Event.Log_Init, Event.ProcessDisableDebugPopup, Event.file_processor_Initialize true,
      Event.GetReplayOptions, Event.call_run_first_pass_replay_portability,
      Event.console Message.first_pass_start, Event.new_VulkanResourceTrackingConsumer] ++
      (if env.resource_tracking_Initialize then
        [Event.resource_tracking_Initialize true,
         Event.resource_tracking_decoder_AddConsumer Consumer.resource_tracking_consumer,
         Event.resource_tracking_AddDecoder [Consumer.resource_tracking_consumer],
         Event.resource_tracking_ProcessAllFrames env.resource_tracking_error_state,
         Event.resource_tracking_RemoveDecoder,
         Event.resource_tracking_decoder_RemoveConsumer Consumer.resource_tracking_consumer]
       else [Event.resource_tracking_Initialize false]), (after_run env).trace, ?_⟩
    rw [hmain, pass_one, pass_two_start, hfirst]
    simp
  · rw [hmain]
    exact after_run_outcome env

/-- Claim C2, amended, at the two-pass example run whose pass-1 file processor does not
initialise: the sort, the remap computation and `application->Run()` are all called. -/
theorem first_pass_error_does_not_halt_witness :
    (∃ before after,
      (main { two_pass_environment with resource_tracking_Initialize := false }).trace =
        before ++
        [Event.SortMemoriesBoundResourcesByOffset,
         Event.CalculateReplayBindingOffsetAndMemoryAllocationSize,
         Event.console Message.first_pass_done,
         Event.new_VulkanReplayConsumer
           (some (gathered { two_pass_environment with
             resource_tracking_Initialize := false }).SortMemoriesBoundResourcesByOffset.CalculateReplayBindingOffsetAndMemoryAllocationSize),
         Event.SetFatalErrorHandler,
         Event.decoder_AddConsumer Consumer.replay_consumer,
         Event.file_processor_AddDecoder [Consumer.replay_consumer],
         Event.SetPauseFrame,
         Event.CheckActiveLayers,
         Event.application_Run [Consumer.replay_consumer]] ++ after) ∧
    (main { two_pass_environment with resource_tracking_Initialize := false }).outcome =
      Outcome.returned 0 :=
  have h := first_pass_error_does_not_halt
    { two_pass_environment with resource_tracking_Initialize := false }
    (by decide) rfl rfl
  ⟨h.2.1, h.2.2⟩

/-- Claim C2 fails as stated. In the two-pass example run whose pass-1 file processor does not
initialise (an I/O error), the sort and the remap computation are called all the same, pass 2 is
run in full and `main` returns 0. In the two-pass example run whose trace is corrupt after the
first call, pass 1 ends in `kCorruptData`, and the sort, the remap computation and
`application->Run()` still follow. -/
theorem first_pass_error_is_not_checked :
    (main { two_pass_environment with
        resource_tracking_Initialize := false
        resource_tracking_error_state := ErrorState.kIOError }) =
      { trace :=
          [Event.Log_Init, Event.ProcessDisableDebugPopup, Event.file_processor_Initialize true,
           Event.GetReplayOptions, Event.call_run_first_pass_replay_portability,
           Event.console Message.first_pass_start, Event.new_VulkanResourceTrackingConsumer,
           Event.resource_tracking_Initialize false,
           Event.SortMemoriesBoundResourcesByOffset,
           Event.CalculateReplayBindingOffsetAndMemoryAllocationSize,
           Event.console Message.first_pass_done,
           Event.new_VulkanReplayConsumer (some { allocations := [], remap_table := [] }),
           Event.SetFatalErrorHandler,
           Event.decoder_AddConsumer Consumer.replay_consumer,
           Event.file_processor_AddDecoder [Consumer.replay_consumer],
           Event.SetPauseFrame, Event.CheckActiveLayers,
           Event.application_Run [Consumer.replay_consumer],
           Event.dispatch 0 [Consumer.replay_consumer],
           Event.dispatch 1 [Consumer.replay_consumer],
           Event.dispatch 2 [Consumer.replay_consumer],
           Event.console (Message.fps 2 1 2),
           Event.Log_Release]
        outcome := Outcome.returned 0 } ∧
    (main { two_pass_environment with
        resource_tracking_error_state := ErrorState.kCorruptData
        tracked_allocations := []
        replay_calls := [CallResult.replayed]
        GetCurrentFrameNumber := 1
        GetErrorState := ErrorState.kCorruptData }).trace =
      [Event.Log_Init, Event.ProcessDisableDebugPopup, Event.file_processor_Initialize true,
       Event.GetReplayOptions, Event.call_run_first_pass_replay_portability,
       Event.console Message.first_pass_start, Event.new_VulkanResourceTrackingConsumer,
       Event.resource_tracking_Initialize true,
       Event.resource_tracking_decoder_AddConsumer Consumer.resource_tracking_consumer,
       Event.resource_tracking_AddDecoder [Consumer.resource_tracking_consumer],
       Event.resource_tracking_ProcessAllFrames ErrorState.kCorruptData,
       Event.resource_tracking_RemoveDecoder,
       Event.resource_tracking_decoder_RemoveConsumer Consumer.resource_tracking_consumer,
       Event.SortMemoriesBoundResourcesByOffset,
       Event.CalculateReplayBindingOffsetAndMemoryAllocationSize,
       Event.console Message.first_pass_done,
       Event.new_VulkanReplayConsumer (some { allocations := [], remap_table := [] }),
       Event.SetFatalErrorHandler,
       Event.decoder_AddConsumer Consumer.replay_consumer,
       Event.file_processor_AddDecoder [Consumer.replay_consumer],
       Event.SetPauseFrame, Event.CheckActiveLayers,
       Event.application_Run [Consumer.replay_consumer],
       Event.dispatch 0 [Consumer.replay_consumer],
       Event.console Message.failure_during_replay,
       Event.Log_Release] := by
  decide

end gfxrecon
